import Mathlib

/-!
Verification development for the Luma node library: a shallow embedding of
the submit-poll-download flow, the reference-resolution policy, and the
per-endpoint payload mapping of the source files under src/luma, together
with theorems settling the specification claims about them.
-/

set_option maxHeartbeats 1000000

namespace Luma

/-- JSON-like values used in outgoing request payloads. Reference weights are
carried opaquely as values since the code never computes with them. -/
inductive JVal : Type where
  | s (v : String)
  | i (v : Int)
  | b (v : Bool)
  | arr (vs : List JVal)
  | obj (fields : List (String × JVal))
deriving Repr

/-- Observable side effects of one node invocation, in order of occurrence:
status-log appends, HTTP fetches, uploads via save_static_file, request
submission, output publication, and uploaded-artifact deletion. -/
inductive Effect : Type where
  | log (line : String)
  | fetch (url : String)
  | upload (filename : String)
  | submit (params : List (String × JVal))
  | publishOutput (param : String)
  | publishUpdate (param : String)
  | deleteArtifact (param : String)
deriving Repr

/-- Python exception classes raised by the nodes. -/
inductive Err : Type where
  | valueError (msg : String)
  | runtimeError (msg : String)
  | timeoutError (msg : String)
  | httpStatusError (status : Nat)
  | fileLoadError (msg : String)
  | transportError (msg : String)
deriving Repr, DecidableEq

/-- The str(e) text of an exception, as interpolated into the failure log. -/
def errMsg : Err → String
  | Err.valueError m => m
  | Err.runtimeError m => m
  | Err.timeoutError m => m
  | Err.httpStatusError st => ("HTTP error ") ++ toString st
  | Err.fileLoadError m => m
  | Err.transportError m => m

/-- A remote generation job as returned by client.generations.get: its state
string, failure_reason, and the asset URLs under generation.assets. -/
structure Generation : Type where
  state : String
  failure_reason : String
  assetImage : String
  assetVideo : String
deriving Repr, DecidableEq

/-- Terminal outcome of the polling loop: the completed job record (whose
asset URL the caller reads), the failure reason of a failed job, or a local
timeout after the attempt budget. -/
inductive PollResult : Type where
  | completedGen (g : Generation)
  | failed (reason : String)
  | timedOut (maxAttempts : Nat)
deriving Repr, DecidableEq

/-- One polling loop step, embedded from the while loop shared by all nodes:
while not completed and attempt < max_attempts, fetch the job and branch on
its state. The argument get gives the job observed at each 1-based attempt
number; the result is paired with the list of observed job records. -/
def pollGo (get : Nat → Generation) (m : Nat) : Nat → Nat → PollResult × List Generation
  | _, 0 => (PollResult.timedOut m, [])
  | attempt, fuel + 1 =>
    let g := get (attempt + 1)
    if g.state = ("completed") then
      (PollResult.completedGen g, [g])
    else if g.state = ("failed") then
      (PollResult.failed g.failure_reason, [g])
    else
      let p := pollGo get m (attempt + 1) fuel
      (p.1, g :: p.2)

/-- Full polling run with attempt counter starting at 0 and fuel equal to the
attempt budget, as in the source loops. -/
def pollRun (get : Nat → Generation) (m : Nat) : PollResult × List Generation :=
  pollGo get m 0 m

/-- Per-node polling tuning: sleep seconds per attempt and attempt budget. -/
structure PollConfig : Type where
  sleepSeconds : Nat
  maxAttempts : Nat
deriving Repr, DecidableEq

/-- image_generation.py: asyncio.sleep(2), max_attempts = 120. -/
def imageGenerationPoll : PollConfig := { sleepSeconds := 2, maxAttempts := 120 }

/-- image_reframe.py: asyncio.sleep(2), max_attempts = 120. -/
def imageReframePoll : PollConfig := { sleepSeconds := 2, maxAttempts := 120 }

/-- video_generation.py: asyncio.sleep(3), max_attempts = 200. -/
def videoGenerationPoll : PollConfig := { sleepSeconds := 3, maxAttempts := 200 }

/-- video_modify.py: asyncio.sleep(3), max_attempts = 180. -/
def videoModifyPoll : PollConfig := { sleepSeconds := 3, maxAttempts := 180 }

/-- video_reframe.py: asyncio.sleep(3), max_attempts = 180. -/
def videoReframePoll : PollConfig := { sleepSeconds := 3, maxAttempts := 180 }

/-- Character-list containment of one list inside another, used to embed the
Python substring operator (needle in haystack). -/
def charsContain (hay needle : List Char) : Bool :=
  match hay with
  | [] => needle.isEmpty
  | _ :: t => needle.isPrefixOf hay || charsContain t needle

/-- Python substring test: needle in hay. -/
def strContainsSub (hay needle : String) : Bool :=
  charsContain hay.toList needle.toList

/-- The localhost test of _get_image_url_for_api: a plain substring check on
the whole URL string, from the line
if 'localhost' in url or '127.0.0.1' in url. -/
def isLocalUrl (url : String) : Bool :=
  strContainsSub url ("localhost") || strContainsSub url ("127.0.0.1")

/-- Text after the first occurrence of the scheme separator in a character
list, or none when no separator occurs. -/
def afterSchemeSep : List Char → Option (List Char)
  | [] => none
  | c :: t =>
    if List.isPrefixOf [':', '/', '/'] (c :: t) then some t.tail.tail
    else afterSchemeSep t

/-- Modelled from the spec: the host component of a URL (the spec and claim
C2 speak of the URL whose host is localhost or 127.0.0.1; the source has no
host parser). Takes the text after the scheme separator, up to the first
slash, and drops any port suffix. -/
def urlHost (url : String) : String :=
  let cs := url.toList
  let rest := match afterSchemeSep cs with
    | some r => r
    | none => cs
  String.mk (rest.takeWhile (fun c => !(c == '/' || c == ':')))

/-- A caller-supplied reference artifact: inline image bytes (ImageArtifact)
or a URL artifact (ImageUrlArtifact). -/
inductive RefArtifact : Type where
  | imageArtifact (content : List Nat)
  | imageUrlArtifact (url : String)
deriving Repr, DecidableEq

/-- External HTTP and storage collaborators: status and body of a GET,
save_static_file returning a public URL, and the current time in ms. -/
structure HttpEnv : Type where
  fetchStatus : String → Nat
  fetchBody : String → List Nat
  saveStaticFile : List Nat → String → String
  timestampMs : Nat

/-- Generated reference filename, from f-string luma_ref_(timestamp).jpg. -/
def lumaRefFilename (ts : Nat) : String :=
  ("luma_ref_") ++ toString ts ++ (".jpg")

/-- Embedding of LumaImageGeneration._get_image_url_for_api: None passes
through as None; inline bytes are uploaded under a timestamped name; a URL
containing localhost or 127.0.0.1 is fetched (raise_for_status on a 4xx/5xx
status) and re-uploaded; any other URL is returned unchanged. The second
component records the side effects performed. -/
def getImageUrlForApi (http : HttpEnv) :
    Option RefArtifact → Except Err (Option String) × List Effect
  | none => (Except.ok none, [])
  | some (RefArtifact.imageArtifact content) =>
    let fn := lumaRefFilename http.timestampMs
    (Except.ok (some (http.saveStaticFile content fn)), [Effect.upload fn])
  | some (RefArtifact.imageUrlArtifact url) =>
    if isLocalUrl url then
      if 400 ≤ http.fetchStatus url then
        (Except.error (Err.httpStatusError (http.fetchStatus url)), [Effect.fetch url])
      else
        let fn := lumaRefFilename http.timestampMs
        (Except.ok (some (http.saveStaticFile (http.fetchBody url) fn)),
          [Effect.fetch url, Effect.upload fn])
    else
      (Except.ok (some url), [])

mutual

/-- Whether a key occurs anywhere inside a JSON value (recursively). -/
def jvalHasKey (k : String) : JVal → Bool
  | JVal.s _ => false
  | JVal.i _ => false
  | JVal.b _ => false
  | JVal.arr vs => jvalListHasKey k vs
  | JVal.obj fs => jvalFieldsHasKey k fs

/-- Whether a key occurs anywhere inside a list of JSON values. -/
def jvalListHasKey (k : String) : List JVal → Bool
  | [] => false
  | v :: vs => jvalHasKey k v || jvalListHasKey k vs

/-- Whether a key occurs as a field name or anywhere inside field values. -/
def jvalFieldsHasKey (k : String) : List (String × JVal) → Bool
  | [] => false
  | (k1, v) :: fs => (k1 == k) || jvalHasKey k v || jvalFieldsHasKey k fs

end

/-- One optional integer field of the reframe payloads: present iff its
value is nonzero, from the lines of the form
if x_start != 0: advanced_params["x_start"] = x_start. -/
def optIntParam (key : String) (v : Int) : List (String × JVal) :=
  if v = 0 then [] else [(key, JVal.i v)]

/-- The advanced_params dict of image_reframe.py and video_reframe.py:
the eight geometry fields, each present iff nonzero, in source order. -/
def reframeGeometryParams (gx gy xs xe ys ye rw rh : Int) : List (String × JVal) :=
  optIntParam ("grid_position_x") gx ++
  optIntParam ("grid_position_y") gy ++
  optIntParam ("x_start") xs ++
  optIntParam ("x_end") xe ++
  optIntParam ("y_start") ys ++
  optIntParam ("y_end") ye ++
  optIntParam ("resized_width") rw ++
  optIntParam ("resized_height") rh

/-- The request payload of LumaImageReframe._process_async: media.url, model,
aspect_ratio and generation_type always; prompt only if nonempty (trimmed);
then the geometry fields merged in. -/
def imageReframeParams (mediaUrl model aspectRatio prompt : String)
    (gx gy xs xe ys ye rw rh : Int) : List (String × JVal) :=
  [(("media"), JVal.obj [(("url"), JVal.s mediaUrl)]),
   (("model"), JVal.s model),
   (("aspect_ratio"), JVal.s aspectRatio),
   (("generation_type"), JVal.s ("reframe_image"))] ++
  (if prompt ≠ ("") then [(("prompt"), JVal.s prompt.trim)] else []) ++
  reframeGeometryParams gx gy xs xe ys ye rw rh

/-- The request payload of LumaVideoReframe._process_async: identical to the
image reframe payload except for generation_type reframe_video. -/
def videoReframeParams (mediaUrl model aspectRatio prompt : String)
    (gx gy xs xe ys ye rw rh : Int) : List (String × JVal) :=
  [(("media"), JVal.obj [(("url"), JVal.s mediaUrl)]),
   (("model"), JVal.s model),
   (("aspect_ratio"), JVal.s aspectRatio),
   (("generation_type"), JVal.s ("reframe_video"))] ++
  (if prompt ≠ ("") then [(("prompt"), JVal.s prompt.trim)] else []) ++
  reframeGeometryParams gx gy xs xe ys ye rw rh

/-- The keyframes dict of LumaVideoGeneration._process_async: frame0 and
frame1 entries, each present only when the resolved frame URL is available. -/
def videoGenKeyframes (frame0Url frame1Url : Option String) : List (String × JVal) :=
  (match frame0Url with
   | some u => [(("frame0"), JVal.obj [(("type"), JVal.s ("image")), (("url"), JVal.s u)])]
   | none => []) ++
  (match frame1Url with
   | some u => [(("frame1"), JVal.obj [(("type"), JVal.s ("image")), (("url"), JVal.s u)])]
   | none => [])

/-- The request payload of LumaVideoGeneration._process_async: prompt and
model always; the aspect_ratio parameter is selected by model (the ray16
variant for ray-1-6) and included when nonempty; resolution and duration only
for ray-2 and ray-flash-2; loop only when true; keyframes when nonempty. -/
def videoGenParams (prompt model aspectRatio16 aspectRatio resolution duration : String)
    (loopVideo : Bool) (frame0Url frame1Url : Option String) : List (String × JVal) :=
  let aspect := if model = ("ray-1-6") then aspectRatio16 else aspectRatio
  [(("prompt"), JVal.s prompt.trim),
   (("model"), JVal.s model)] ++
  (if aspect ≠ ("") then [(("aspect_ratio"), JVal.s aspect)] else []) ++
  (if model = ("ray-2") ∨ model = ("ray-flash-2") then
    [(("resolution"), JVal.s resolution), (("duration"), JVal.s duration)]
   else []) ++
  (if loopVideo then [(("loop"), JVal.b true)] else []) ++
  (if (videoGenKeyframes frame0Url frame1Url).isEmpty then []
   else [(("keyframes"), JVal.obj (videoGenKeyframes frame0Url frame1Url))])

/-- The reference sub-object added by LumaImageGeneration._process_async for
one resolved reference URL, by reference type: image_ref and style_ref as
single-element lists of url+weight objects, character_ref as a nested
identity map without a weight, modify_image_ref as a flat url+weight object;
an unrecognized type adds nothing. -/
def imageGenRefShape (referenceType url : String) (weight : JVal) : List (String × JVal) :=
  if referenceType = ("image_reference") then
    [(("image_ref"), JVal.arr [JVal.obj [(("url"), JVal.s url), (("weight"), weight)]])]
  else if referenceType = ("style_reference") then
    [(("style_ref"), JVal.arr [JVal.obj [(("url"), JVal.s url), (("weight"), weight)]])]
  else if referenceType = ("character_reference") then
    [(("character_ref"), JVal.obj [(("identity0"), JVal.obj [(("images"), JVal.arr [JVal.s url])])])]
  else if referenceType = ("modify_image") then
    [(("modify_image_ref"), JVal.obj [(("url"), JVal.s url), (("weight"), weight)])]
  else []

/-- The request payload of LumaImageGeneration._process_async: trimmed
prompt, model and aspect_ratio always; the reference sub-object only when the
reference type is not none and a reference URL was resolved. -/
def imageGenParams (prompt model aspectRatio referenceType : String)
    (resolvedUrl : Option String) (weight : JVal) : List (String × JVal) :=
  [(("prompt"), JVal.s prompt.trim),
   (("model"), JVal.s model),
   (("aspect_ratio"), JVal.s aspectRatio)] ++
  (if referenceType = ("none") then []
   else match resolvedUrl with
     | none => []
     | some url => imageGenRefShape referenceType url weight)

/-- The status line logged by LumaImageGeneration._process_async when a
reference is attached, by reference type. -/
def imageGenRefLog (referenceType url : String) : List Effect :=
  if referenceType = ("image_reference") then
    [Effect.log (("Using image reference: ") ++ url ++ ("\n"))]
  else if referenceType = ("style_reference") then
    [Effect.log (("Using style reference: ") ++ url ++ ("\n"))]
  else if referenceType = ("character_reference") then
    [Effect.log (("Using character reference: ") ++ url ++ ("\n"))]
  else if referenceType = ("modify_image") then
    [Effect.log (("Modifying image: ") ++ url ++ ("\n"))]
  else []

/-- The per-attempt status lines of the polling loop, numbering attempts from
n upward: a Completed line for a completed observation, no line for a failed
observation (the raise happens before logging), and an attempt/state line
otherwise. -/
def pollLogsFrom : Nat → List Generation → List Effect
  | _, [] => []
  | n, g :: t =>
    (if g.state = ("completed") then
       [Effect.log (("Attempt ") ++ toString n ++ (": Completed!\n"))]
     else if g.state = ("failed") then []
     else [Effect.log (("Attempt ") ++ toString n ++ (": ") ++ g.state ++ ("\n"))]) ++
    pollLogsFrom (n + 1) t

/-- The message of the ValueError raised by _get_api_key in every node. -/
def apiKeyRaiseMsg : String :=
  ("Luma API key not found. Please set the LUMAAI_API_KEY environment variable.\nGet your API key from: https://lumalabs.ai/dream-machine/api/keys")

/-- The validator message for a missing API key, prefixed by the node name. -/
def apiKeyValidateMsg (name : String) : String :=
  name ++ (": Luma API key not found. Please set the LUMAAI_API_KEY environment variable.")

/-- Whether an effect publishes an output artifact (parameter_output_values
assignment or publish_update_to_parameter). -/
def effectIsPublish : Effect → Bool
  | Effect.publishOutput _ => true
  | Effect.publishUpdate _ => true
  | _ => false

/-- Whether an effect deletes an uploaded artifact. -/
def effectIsDelete : Effect → Bool
  | Effect.deleteArtifact _ => true
  | _ => false

/-- Whether an effect is an upload of the given filename. -/
def effectIsUploadNamed (fn : String) : Effect → Bool
  | Effect.upload fn1 => fn1 == fn
  | _ => false

/-- Caller parameters and external collaborators of one
LumaImageGeneration._process_async invocation. -/
structure ImgGenEnv : Type where
  http : HttpEnv
  apiKey : String
  prompt : String
  model : String
  aspectRatio : String
  referenceType : String
  referenceImage : Option RefArtifact
  referenceWeight : JVal
  createResult : Except String String
  pollStates : Nat → Generation

/-- The validation-and-payload phase of LumaImageGeneration._process_async:
api key check, prompt check, the creating-request log, and reference
resolution feeding imageGenParams, with the reference status line. -/
def imgGenBuildParams (env : ImgGenEnv) :
    Except Err (List (String × JVal)) × List Effect :=
  if env.apiKey = ("") then
    (Except.error (Err.valueError apiKeyRaiseMsg), [])
  else if env.prompt = ("") then
    (Except.error (Err.valueError ("Prompt is required and cannot be empty")), [])
  else
    let fx0 := [Effect.log ("Creating generation request...\n")]
    if env.referenceType = ("none") then
      (Except.ok (imageGenParams env.prompt env.model env.aspectRatio env.referenceType none env.referenceWeight), fx0)
    else
      match env.referenceImage with
      | none =>
        (Except.ok (imageGenParams env.prompt env.model env.aspectRatio env.referenceType none env.referenceWeight), fx0)
      | some art =>
        match getImageUrlForApi env.http (some art) with
        | (Except.error e, fxr) => (Except.error e, fx0 ++ fxr)
        | (Except.ok urlOpt, fxr) =>
          let refLog := match urlOpt with
            | none => []
            | some url => imageGenRefLog env.referenceType url
          (Except.ok (imageGenParams env.prompt env.model env.aspectRatio env.referenceType urlOpt env.referenceWeight),
            fx0 ++ fxr ++ refLog)

/-- The submit, poll, download, persist and publish phase of
LumaImageGeneration._process_async, with the polling budget of
imageGenerationPoll and the failure and timeout raises of the loop. -/
def imgGenRunTail (env : ImgGenEnv) (params : List (String × JVal)) :
    Except Err Unit × List Effect :=
  match env.createResult with
  | Except.error msg => (Except.error (Err.transportError msg), [Effect.submit params])
  | Except.ok genId =>
    let fx1 := [Effect.submit params,
      Effect.log (("Request created with ID: ") ++ genId ++ ("\n")),
      Effect.log ("Waiting for generation to complete...\n")]
    let p := pollRun env.pollStates imageGenerationPoll.maxAttempts
    let pollFx := pollLogsFrom 1 p.2
    match p.1 with
    | PollResult.failed reason =>
      (Except.error (Err.runtimeError (("Generation failed: ") ++ reason)), fx1 ++ pollFx)
    | PollResult.timedOut n =>
      (Except.error (Err.timeoutError (("Generation timed out after ") ++ toString n ++ (" attempts"))),
        fx1 ++ pollFx)
    | PollResult.completedGen g =>
      let assetUrl := g.assetImage
      let fx2 := fx1 ++ pollFx ++ [Effect.log ("Downloading generated image...\n")]
      if 400 ≤ env.http.fetchStatus assetUrl then
        (Except.error (Err.valueError (("Failed to download image from URL: ") ++ assetUrl)),
          fx2 ++ [Effect.fetch assetUrl])
      else
        let fn := ("luma_photon_") ++ toString env.http.timestampMs ++ (".jpg")
        (Except.ok (),
          fx2 ++ [Effect.fetch assetUrl, Effect.upload fn,
            Effect.publishOutput ("image"),
            Effect.log (("✅ Generation completed successfully!\nOriginal URL: ") ++ assetUrl ++ ("\n"))])

/-- The try body of LumaImageGeneration._process_async. -/
def imgGenInner (env : ImgGenEnv) : Except Err Unit × List Effect :=
  match imgGenBuildParams env with
  | (Except.error e, fx) => (Except.error e, fx)
  | (Except.ok params, fx) =>
    let t := imgGenRunTail env params
    (t.1, fx ++ t.2)

/-- The failure status line of LumaImageGeneration._process_async. -/
def imageGenFailLine (e : Err) : String :=
  ("❌ Generation failed: ") ++ errMsg e ++ ("\n")

/-- LumaImageGeneration._process_async with its except handler: on any error
the failure line is appended to the status log and the error re-raised.
There is no finally block in this node. -/
def imgGenProcess (env : ImgGenEnv) : Except Err Unit × List Effect :=
  match imgGenInner env with
  | (Except.ok _, fx) => (Except.ok (), fx)
  | (Except.error e, fx) => (Except.error e, fx ++ [Effect.log (imageGenFailLine e)])

/-- Caller parameters and external collaborators of one
LumaVideoGeneration._process_async invocation. The frame URLs are the results
of the external PublicArtifactUrlParameter resolution (none when falsy). -/
structure VideoGenEnv : Type where
  http : HttpEnv
  apiKey : String
  prompt : String
  model : String
  aspectRatio16 : String
  aspectRatio : String
  resolution : String
  duration : String
  loopVideo : Bool
  startFramePresent : Bool
  startFramePublicUrl : Option String
  endFramePresent : Bool
  endFramePublicUrl : Option String
  createResult : Except String String
  pollStates : Nat → Generation
  fileRead : String → Except String (List Nat)

/-- The resolved frame0 keyframe URL: the start_frame parameter must be
truthy and its public URL available. -/
def videoGenFrame0 (env : VideoGenEnv) : Option String :=
  if env.startFramePresent then env.startFramePublicUrl else none

/-- The resolved frame1 keyframe URL, as for frame0. -/
def videoGenFrame1 (env : VideoGenEnv) : Option String :=
  if env.endFramePresent then env.endFramePublicUrl else none

/-- The status lines of the payload phase of video generation: loop mode and
keyframe lines, in source order. -/
def videoGenParamLogs (env : VideoGenEnv) : List Effect :=
  (if env.loopVideo then [Effect.log ("Loop mode enabled\n")] else []) ++
  (match videoGenFrame0 env with
   | some u => [Effect.log (("Using start frame: ") ++ u ++ ("\n"))]
   | none => []) ++
  (match videoGenFrame1 env with
   | some u => [Effect.log (("Using end frame: ") ++ u ++ ("\n"))]
   | none => [])

/-- The try body of LumaVideoGeneration._process_async: validation, payload
assembly via videoGenParams, submit, the 200-attempt poll, download via
File.read_bytes, persist and publish. -/
def videoGenInner (env : VideoGenEnv) : Except Err Unit × List Effect :=
  if env.apiKey = ("") then
    (Except.error (Err.valueError apiKeyRaiseMsg), [])
  else if env.prompt = ("") then
    (Except.error (Err.valueError ("Prompt is required and cannot be empty")), [])
  else
    let params := videoGenParams env.prompt env.model env.aspectRatio16 env.aspectRatio
      env.resolution env.duration env.loopVideo (videoGenFrame0 env) (videoGenFrame1 env)
    let fx0 := [Effect.log ("Creating generation request...\n")] ++ videoGenParamLogs env
    match env.createResult with
    | Except.error msg => (Except.error (Err.transportError msg), fx0 ++ [Effect.submit params])
    | Except.ok genId =>
      let fx1 := fx0 ++ [Effect.submit params,
        Effect.log (("Request created with ID: ") ++ genId ++ ("\n")),
        Effect.log ("Waiting for generation to complete...\n")]
      let p := pollRun env.pollStates videoGenerationPoll.maxAttempts
      let pollFx := pollLogsFrom 1 p.2
      match p.1 with
      | PollResult.failed reason =>
        (Except.error (Err.runtimeError (("Generation failed: ") ++ reason)), fx1 ++ pollFx)
      | PollResult.timedOut n =>
        (Except.error (Err.timeoutError (("Generation timed out after ") ++ toString n ++ (" attempts"))),
          fx1 ++ pollFx)
      | PollResult.completedGen g =>
        let assetUrl := g.assetVideo
        let fx2 := fx1 ++ pollFx ++ [Effect.log ("Downloading generated video...\n")]
        match env.fileRead assetUrl with
        | Except.error msg => (Except.error (Err.fileLoadError msg), fx2)
        | Except.ok _ =>
          let fn := ("luma_ray2_") ++ toString env.http.timestampMs ++ (".mp4")
          (Except.ok (),
            fx2 ++ [Effect.upload fn,
              Effect.publishOutput ("video"),
              Effect.publishUpdate ("video"),
              Effect.log (("✅ Generation completed successfully!\nOriginal URL: ") ++ assetUrl ++ ("\n"))])

/-- The failure status line of LumaVideoGeneration._process_async. -/
def videoGenFailLine (e : Err) : String :=
  ("❌ Generation failed: ") ++ errMsg e ++ ("\n")

/-- LumaVideoGeneration._process_async with its except handler and its
finally block, which deletes the uploaded start and end frame artifacts on
every exit path. -/
def videoGenProcess (env : VideoGenEnv) : Except Err Unit × List Effect :=
  let finallyFx := [Effect.deleteArtifact ("start_frame"), Effect.deleteArtifact ("end_frame")]
  match videoGenInner env with
  | (Except.ok _, fx) => (Except.ok (), fx ++ finallyFx)
  | (Except.error e, fx) =>
    (Except.error e, fx ++ [Effect.log (videoGenFailLine e)] ++ finallyFx)

/-- Caller parameters and external collaborators of one
LumaImageReframe._process_async invocation. The input image URL is the result
of the external PublicArtifactUrlParameter resolution (none when falsy). -/
structure ImageReframeEnv : Type where
  http : HttpEnv
  apiKey : String
  inputImagePublicUrl : Option String
  model : String
  aspectRatio : String
  prompt : String
  grid_position_x : Int
  grid_position_y : Int
  x_start : Int
  x_end : Int
  y_start : Int
  y_end : Int
  resized_width : Int
  resized_height : Int
  createResult : Except String String
  pollStates : Nat → Generation
  fileRead : String → Except String (List Nat)

/-- The try body of LumaImageReframe._process_async: api key check, the
input-image requirement, payload assembly via imageReframeParams with its
prompt and advanced-parameter status lines, submit, the 120-attempt poll,
download via File.read_bytes, persist and publish. -/
def imageReframeInner (env : ImageReframeEnv) : Except Err Unit × List Effect :=
  if env.apiKey = ("") then
    (Except.error (Err.valueError apiKeyRaiseMsg), [])
  else
    match env.inputImagePublicUrl with
    | none => (Except.error (Err.valueError ("Input image is required")), [])
    | some imageUrl =>
      let params := imageReframeParams imageUrl env.model env.aspectRatio env.prompt
        env.grid_position_x env.grid_position_y env.x_start env.x_end
        env.y_start env.y_end env.resized_width env.resized_height
      let advanced := reframeGeometryParams env.grid_position_x env.grid_position_y
        env.x_start env.x_end env.y_start env.y_end env.resized_width env.resized_height
      let fx0 := [Effect.log (("Using input image: ") ++ imageUrl ++ ("\n")),
          Effect.log ("Creating reframe request...\n")] ++
        (if env.prompt ≠ ("") then
          [Effect.log (("Using prompt: ") ++ env.prompt.trim ++ ("\n"))] else []) ++
        (if advanced.isEmpty then [] else [Effect.log ("Using advanced parameters\n")])
      match env.createResult with
      | Except.error msg => (Except.error (Err.transportError msg), fx0 ++ [Effect.submit params])
      | Except.ok genId =>
        let fx1 := fx0 ++ [Effect.submit params,
          Effect.log (("Request created with ID: ") ++ genId ++ ("\n")),
          Effect.log ("Waiting for reframe to complete...\n")]
        let p := pollRun env.pollStates imageReframePoll.maxAttempts
        let pollFx := pollLogsFrom 1 p.2
        match p.1 with
        | PollResult.failed reason =>
          (Except.error (Err.runtimeError (("Reframe failed: ") ++ reason)), fx1 ++ pollFx)
        | PollResult.timedOut n =>
          (Except.error (Err.timeoutError (("Reframe timed out after ") ++ toString n ++ (" attempts"))),
            fx1 ++ pollFx)
        | PollResult.completedGen g =>
          let assetUrl := g.assetImage
          let fx2 := fx1 ++ pollFx ++ [Effect.log ("Downloading reframed image...\n")]
          match env.fileRead assetUrl with
          | Except.error msg => (Except.error (Err.fileLoadError msg), fx2)
          | Except.ok _ =>
            let fn := ("luma_reframe_") ++ toString env.http.timestampMs ++ (".jpg")
            (Except.ok (),
              fx2 ++ [Effect.upload fn,
                Effect.publishOutput ("output_image"),
                Effect.publishUpdate ("output_image"),
                Effect.log (("✅ Reframe completed successfully!\nOriginal URL: ") ++ assetUrl ++ ("\n"))])

/-- The failure status line of LumaImageReframe._process_async. -/
def imageReframeFailLine (e : Err) : String :=
  ("❌ Reframe failed: ") ++ errMsg e ++ ("\n")

/-- LumaImageReframe._process_async with its except handler and its finally
block, which deletes the uploaded input image artifact on every exit path. -/
def imageReframeProcess (env : ImageReframeEnv) : Except Err Unit × List Effect :=
  let finallyFx := [Effect.deleteArtifact ("input_image")]
  match imageReframeInner env with
  | (Except.ok _, fx) => (Except.ok (), fx ++ finallyFx)
  | (Except.error e, fx) =>
    (Except.error e, fx ++ [Effect.log (imageReframeFailLine e)] ++ finallyFx)

/-- The request payload of LumaVideoModify._process_async: media.url, model,
mode, generation_type and the trimmed prompt always; first_frame only when a
first-frame URL was resolved. -/
def videoModifyParams (videoUrl model mode prompt : String)
    (firstFrameUrl : Option String) : List (String × JVal) :=
  [(("media"), JVal.obj [(("url"), JVal.s videoUrl)]),
   (("model"), JVal.s model),
   (("mode"), JVal.s mode),
   (("generation_type"), JVal.s ("modify_video")),
   (("prompt"), JVal.s prompt.trim)] ++
  (match firstFrameUrl with
   | some u => [(("first_frame"), JVal.obj [(("url"), JVal.s u)])]
   | none => [])

/-- Caller parameters and external collaborators of one
LumaVideoModify._process_async invocation. The input video and first frame
URLs are the results of the external PublicArtifactUrlParameter resolution
(none when falsy). -/
structure VideoModifyEnv : Type where
  http : HttpEnv
  apiKey : String
  inputVideoPublicUrl : Option String
  prompt : String
  model : String
  mode : String
  firstFramePresent : Bool
  firstFramePublicUrl : Option String
  createResult : Except String String
  pollStates : Nat → Generation

/-- The resolved first_frame URL of video modify: the first_frame parameter
must be truthy and its public URL available. -/
def videoModifyFirstFrame (env : VideoModifyEnv) : Option String :=
  if env.firstFramePresent then env.firstFramePublicUrl else none

/-- The try body of LumaVideoModify._process_async: api key check, the
input-video requirement, the prompt requirement, payload assembly via
videoModifyParams with its status lines, submit, the 180-attempt poll,
download over HTTP (raise_for_status wrapped into a ValueError), persist and
publish. -/
def videoModifyInner (env : VideoModifyEnv) : Except Err Unit × List Effect :=
  if env.apiKey = ("") then
    (Except.error (Err.valueError apiKeyRaiseMsg), [])
  else
    match env.inputVideoPublicUrl with
    | none => (Except.error (Err.valueError ("Input video is required")), [])
    | some videoUrl =>
      if env.prompt = ("") then
        (Except.error (Err.valueError ("Prompt is required")), [])
      else
        let params := videoModifyParams videoUrl env.model env.mode env.prompt
          (videoModifyFirstFrame env)
        let fx0 := [Effect.log (("Using input video: ") ++ videoUrl ++ ("\n")),
            Effect.log ("Creating modification request...\n"),
            Effect.log (("Using prompt: ") ++ env.prompt.trim ++ ("\n")),
            Effect.log (("Using mode: ") ++ env.mode ++ ("\n"))] ++
          (match videoModifyFirstFrame env with
           | some u => [Effect.log (("Using first frame: ") ++ u ++ ("\n"))]
           | none => [])
        match env.createResult with
        | Except.error msg =>
          (Except.error (Err.transportError msg), fx0 ++ [Effect.submit params])
        | Except.ok genId =>
          let fx1 := fx0 ++ [Effect.submit params,
            Effect.log (("Request created with ID: ") ++ genId ++ ("\n")),
            Effect.log ("Waiting for modification to complete...\n")]
          let p := pollRun env.pollStates videoModifyPoll.maxAttempts
          let pollFx := pollLogsFrom 1 p.2
          match p.1 with
          | PollResult.failed reason =>
            (Except.error (Err.runtimeError (("Modification failed: ") ++ reason)),
              fx1 ++ pollFx)
          | PollResult.timedOut n =>
            (Except.error (Err.timeoutError (("Modification timed out after ") ++
                toString n ++ (" attempts"))), fx1 ++ pollFx)
          | PollResult.completedGen g =>
            let assetUrl := g.assetVideo
            let fx2 := fx1 ++ pollFx ++ [Effect.log ("Downloading modified video...\n")]
            if 400 ≤ env.http.fetchStatus assetUrl then
              (Except.error (Err.valueError (("Failed to download video from URL: ") ++ assetUrl)),
                fx2 ++ [Effect.fetch assetUrl])
            else
              let fn := ("luma_modify_") ++ toString env.http.timestampMs ++ (".mp4")
              (Except.ok (),
                fx2 ++ [Effect.fetch assetUrl, Effect.upload fn,
                  Effect.publishOutput ("output_video"),
                  Effect.publishUpdate ("output_video"),
                  Effect.log (("✅ Modification completed successfully!\nOriginal URL: ") ++
                    assetUrl ++ ("\n"))])

/-- The failure status line of LumaVideoModify._process_async. -/
def videoModifyFailLine (e : Err) : String :=
  ("❌ Modification failed: ") ++ errMsg e ++ ("\n")

/-- LumaVideoModify._process_async with its except handler and its finally
block, which deletes the uploaded input video and first frame artifacts on
every exit path. -/
def videoModifyProcess (env : VideoModifyEnv) : Except Err Unit × List Effect :=
  let finallyFx := [Effect.deleteArtifact ("input_video"),
    Effect.deleteArtifact ("first_frame")]
  match videoModifyInner env with
  | (Except.ok _, fx) => (Except.ok (), fx ++ finallyFx)
  | (Except.error e, fx) =>
    (Except.error e, fx ++ [Effect.log (videoModifyFailLine e)] ++ finallyFx)

/-- Caller parameters and external collaborators of one
LumaVideoReframe._process_async invocation. The input video URL is the result
of the external PublicArtifactUrlParameter resolution (none when falsy). -/
structure VideoReframeEnv : Type where
  http : HttpEnv
  apiKey : String
  inputVideoPublicUrl : Option String
  model : String
  aspectRatio : String
  prompt : String
  grid_position_x : Int
  grid_position_y : Int
  x_start : Int
  x_end : Int
  y_start : Int
  y_end : Int
  resized_width : Int
  resized_height : Int
  createResult : Except String String
  pollStates : Nat → Generation

/-- The try body of LumaVideoReframe._process_async: api key check, the
input-video requirement, payload assembly via videoReframeParams with its
prompt and advanced-parameter status lines, submit, the 180-attempt poll,
download over HTTP (raise_for_status wrapped into a ValueError), persist and
publish. -/
def videoReframeInner (env : VideoReframeEnv) : Except Err Unit × List Effect :=
  if env.apiKey = ("") then
    (Except.error (Err.valueError apiKeyRaiseMsg), [])
  else
    match env.inputVideoPublicUrl with
    | none => (Except.error (Err.valueError ("Input video is required")), [])
    | some videoUrl =>
      let params := videoReframeParams videoUrl env.model env.aspectRatio env.prompt
        env.grid_position_x env.grid_position_y env.x_start env.x_end
        env.y_start env.y_end env.resized_width env.resized_height
      let advanced := reframeGeometryParams env.grid_position_x env.grid_position_y
        env.x_start env.x_end env.y_start env.y_end env.resized_width env.resized_height
      let fx0 := [Effect.log (("Using input video: ") ++ videoUrl ++ ("\n")),
          Effect.log ("Creating reframe request...\n")] ++
        (if env.prompt ≠ ("") then
          [Effect.log (("Using prompt: ") ++ env.prompt.trim ++ ("\n"))] else []) ++
        (if advanced.isEmpty then [] else [Effect.log ("Using advanced parameters\n")])
      match env.createResult with
      | Except.error msg =>
        (Except.error (Err.transportError msg), fx0 ++ [Effect.submit params])
      | Except.ok genId =>
        let fx1 := fx0 ++ [Effect.submit params,
          Effect.log (("Request created with ID: ") ++ genId ++ ("\n")),
          Effect.log ("Waiting for reframe to complete...\n")]
        let p := pollRun env.pollStates videoReframePoll.maxAttempts
        let pollFx := pollLogsFrom 1 p.2
        match p.1 with
        | PollResult.failed reason =>
          (Except.error (Err.runtimeError (("Reframe failed: ") ++ reason)), fx1 ++ pollFx)
        | PollResult.timedOut n =>
          (Except.error (Err.timeoutError (("Reframe timed out after ") ++
              toString n ++ (" attempts"))), fx1 ++ pollFx)
        | PollResult.completedGen g =>
          let assetUrl := g.assetVideo
          let fx2 := fx1 ++ pollFx ++ [Effect.log ("Downloading reframed video...\n")]
          if 400 ≤ env.http.fetchStatus assetUrl then
            (Except.error (Err.valueError (("Failed to download video from URL: ") ++ assetUrl)),
              fx2 ++ [Effect.fetch assetUrl])
          else
            let fn := ("luma_reframe_") ++ toString env.http.timestampMs ++ (".mp4")
            (Except.ok (),
              fx2 ++ [Effect.fetch assetUrl, Effect.upload fn,
                Effect.publishOutput ("output_video"),
                Effect.publishUpdate ("output_video"),
                Effect.log (("✅ Reframe completed successfully!\nOriginal URL: ") ++
                  assetUrl ++ ("\n"))])

/-- The failure status line of LumaVideoReframe._process_async. -/
def videoReframeFailLine (e : Err) : String :=
  ("❌ Reframe failed: ") ++ errMsg e ++ ("\n")

/-- LumaVideoReframe._process_async with its except handler and its finally
block, which deletes the uploaded input video artifact on every exit path. -/
def videoReframeProcess (env : VideoReframeEnv) : Except Err Unit × List Effect :=
  let finallyFx := [Effect.deleteArtifact ("input_video")]
  match videoReframeInner env with
  | (Except.ok _, fx) => (Except.ok (), fx ++ finallyFx)
  | (Except.error e, fx) =>
    (Except.error e, fx ++ [Effect.log (videoReframeFailLine e)] ++ finallyFx)

/-- LumaImageGeneration.validate_before_node_run: collects a missing-prompt
error and a missing-api-key error; returns none when no error. -/
def imageGenValidateBeforeNodeRun (name prompt apiKey : String) : Option (List String) :=
  let errors :=
    (if prompt = ("") then [name ++ (": Provide a prompt for image generation.")] else []) ++
    (if apiKey = ("") then [apiKeyValidateMsg name] else [])
  if errors.isEmpty then none else some errors

/-- LumaImageGeneration.validate_before_workflow_run: delegates to the
node-run validator. -/
def imageGenValidateBeforeWorkflowRun (name prompt apiKey : String) : Option (List String) :=
  imageGenValidateBeforeNodeRun name prompt apiKey

/-- LumaVideoGeneration.validate_before_node_run. -/
def videoGenValidateBeforeNodeRun (name prompt apiKey : String) : Option (List String) :=
  let errors :=
    (if prompt = ("") then [name ++ (": Provide a prompt for video generation.")] else []) ++
    (if apiKey = ("") then [apiKeyValidateMsg name] else [])
  if errors.isEmpty then none else some errors

/-- LumaVideoGeneration.validate_before_workflow_run. -/
def videoGenValidateBeforeWorkflowRun (name prompt apiKey : String) : Option (List String) :=
  videoGenValidateBeforeNodeRun name prompt apiKey

/-- LumaImageReframe.validate_before_node_run: the input_image parameter must
be truthy and the api key configured. -/
def imageReframeValidateBeforeNodeRun (name : String) (inputImage : Bool)
    (apiKey : String) : Option (List String) :=
  let errors :=
    (if inputImage then [] else [name ++ (": Provide an input image to reframe.")]) ++
    (if apiKey = ("") then [apiKeyValidateMsg name] else [])
  if errors.isEmpty then none else some errors

/-- LumaImageReframe.validate_before_workflow_run. -/
def imageReframeValidateBeforeWorkflowRun (name : String) (inputImage : Bool)
    (apiKey : String) : Option (List String) :=
  imageReframeValidateBeforeNodeRun name inputImage apiKey

/-- LumaVideoReframe.validate_before_node_run. -/
def videoReframeValidateBeforeNodeRun (name : String) (inputVideo : Bool)
    (apiKey : String) : Option (List String) :=
  let errors :=
    (if inputVideo then [] else [name ++ (": Provide an input video to reframe.")]) ++
    (if apiKey = ("") then [apiKeyValidateMsg name] else [])
  if errors.isEmpty then none else some errors

/-- LumaVideoReframe.validate_before_workflow_run. -/
def videoReframeValidateBeforeWorkflowRun (name : String) (inputVideo : Bool)
    (apiKey : String) : Option (List String) :=
  videoReframeValidateBeforeNodeRun name inputVideo apiKey

/-- LumaVideoModify.validate_before_node_run: input video, prompt and api key
are all required. -/
def videoModifyValidateBeforeNodeRun (name : String) (inputVideo : Bool)
    (prompt apiKey : String) : Option (List String) :=
  let errors :=
    (if inputVideo then [] else [name ++ (": Provide an input video to modify.")]) ++
    (if prompt = ("") then [name ++ (": Provide a prompt to guide the modification.")] else []) ++
    (if apiKey = ("") then [apiKeyValidateMsg name] else [])
  if errors.isEmpty then none else some errors

/-- LumaVideoModify.validate_before_workflow_run. -/
def videoModifyValidateBeforeWorkflowRun (name : String) (inputVideo : Bool)
    (prompt apiKey : String) : Option (List String) :=
  videoModifyValidateBeforeNodeRun name inputVideo prompt apiKey

/-- LumaListCameraMotions.validate_before_node_run: only the api key. -/
def listCameraMotionsValidateBeforeNodeRun (name apiKey : String) : Option (List String) :=
  let errors := if apiKey = ("") then [apiKeyValidateMsg name] else []
  if errors.isEmpty then none else some errors

/-- LumaListCameraMotions.validate_before_workflow_run. -/
def listCameraMotionsValidateBeforeWorkflowRun (name apiKey : String) : Option (List String) :=
  listCameraMotionsValidateBeforeNodeRun name apiKey

/-- LumaListConcepts.validate_before_node_run: only the api key. -/
def listConceptsValidateBeforeNodeRun (name apiKey : String) : Option (List String) :=
  let errors := if apiKey = ("") then [apiKeyValidateMsg name] else []
  if errors.isEmpty then none else some errors

/-- LumaListConcepts.validate_before_workflow_run. -/
def listConceptsValidateBeforeWorkflowRun (name apiKey : String) : Option (List String) :=
  listConceptsValidateBeforeNodeRun name apiKey

/-- A fixed HTTP and storage environment for concrete evaluations: every
fetch succeeds with status 200 and a three-byte body, uploads land under a
fixed static prefix, and the clock reads 0 ms. -/
def httpEnv0 : HttpEnv :=
  { fetchStatus := fun _ => 200
    fetchBody := fun _ => [1, 2, 3]
    saveStaticFile := fun _ fn => ("https://static.example/") ++ fn
    timestampMs := 0 }

/-- A remote job that is already completed on the first poll. -/
def completedGeneration : Generation :=
  { state := ("completed")
    failure_reason := ("")
    assetImage := ("https://cdn.luma.example/result.jpg")
    assetVideo := ("https://cdn.luma.example/result.mp4") }

/-- A concrete image generation invocation whose reference image is a
localhost URL artifact, so the resolver fetches and re-uploads it, and whose
generation completes on the first poll. -/
def imgGenEnvLocalRef : ImgGenEnv :=
  { http := httpEnv0
    apiKey := ("key")
    prompt := ("a cat")
    model := ("photon-1")
    aspectRatio := ("16:9")
    referenceType := ("image_reference")
    referenceImage := some (RefArtifact.imageUrlArtifact ("http://localhost:8080/ref.jpg"))
    referenceWeight := JVal.s ("0.85")
    createResult := Except.ok ("gen-1")
    pollStates := fun _ => completedGeneration }

/-- A concrete image generation invocation with no API key configured. -/
def imgGenEnvNoKey : ImgGenEnv :=
  { http := httpEnv0
    apiKey := ("")
    prompt := ("a cat")
    model := ("photon-1")
    aspectRatio := ("16:9")
    referenceType := ("none")
    referenceImage := none
    referenceWeight := JVal.s ("0.85")
    createResult := Except.ok ("gen-1")
    pollStates := fun _ => completedGeneration }

/-- A concrete image reframe invocation whose input image resolved to
nothing, with the API key configured. -/
def imageReframeEnvNoInput : ImageReframeEnv :=
  { http := httpEnv0
    apiKey := ("key")
    inputImagePublicUrl := none
    model := ("photon-1")
    aspectRatio := ("16:9")
    prompt := ("")
    grid_position_x := 0
    grid_position_y := 0
    x_start := 0
    x_end := 0
    y_start := 0
    y_end := 0
    resized_width := 0
    resized_height := 0
    createResult := Except.ok ("gen-2")
    pollStates := fun _ => completedGeneration
    fileRead := fun _ => Except.ok [1, 2, 3] }

/-- A remote state function that completes on the first poll. -/
def alwaysCompleted : Nat → Generation := fun _ => completedGeneration

/-! Helper lemmas about List.lookup over the concatenated payload segments. -/

theorem lookup_append_of_none {β : Type} (k : String) {l1 l2 : List (String × β)}
    (h : List.lookup k l1 = none) : List.lookup k (l1 ++ l2) = List.lookup k l2 := by
  induction l1 with
  | nil => simp
  | cons p t ih =>
    rcases p with ⟨k1, v⟩
    rw [List.cons_append]
    simp only [List.lookup] at h ⊢
    cases hb : (k == k1) <;> simp only [hb] at h ⊢
    · exact ih h
    · exact Option.noConfusion h

theorem lookup_append_of_some {β : Type} (k : String) {l1 l2 : List (String × β)} {v : β}
    (h : List.lookup k l1 = some v) : List.lookup k (l1 ++ l2) = some v := by
  induction l1 with
  | nil => exact Option.noConfusion h
  | cons p t ih =>
    rcases p with ⟨k1, w⟩
    rw [List.cons_append]
    simp only [List.lookup] at h ⊢
    cases hb : (k == k1) <;> simp only [hb] at h ⊢
    · exact ih h
    · exact h

theorem lookup_ite_append_none (c : Prop) [Decidable c] (k : String) {β : Type}
    (l rest : List (String × β)) (h : List.lookup k l = none) :
    List.lookup k ((if c then l else []) ++ rest) = List.lookup k rest := by
  split
  · exact lookup_append_of_none k h
  · simp

theorem lookup_ite_append_pos (c : Prop) [Decidable c] (hc : c) (k : String) {β : Type}
    (l rest : List (String × β)) {v : β} (h : List.lookup k l = some v) :
    List.lookup k ((if c then l else []) ++ rest) = some v := by
  rw [if_pos hc]
  exact lookup_append_of_some k h

theorem lookup_ite_append_neg (c : Prop) [Decidable c] (hc : ¬c) (k : String) {β : Type}
    (l rest : List (String × β)) :
    List.lookup k ((if c then l else []) ++ rest) = List.lookup k rest := by
  rw [if_neg hc]
  simp

theorem lookup_ite_none (c : Prop) [Decidable c] (k : String) {β : Type}
    (l : List (String × β)) (h : List.lookup k l = none) :
    List.lookup k (if c then l else []) = none := by
  split
  · exact h
  · rfl

theorem lookup_ite_inv_none (c : Prop) [Decidable c] (k : String) {β : Type}
    (l : List (String × β)) (h : List.lookup k l = none) :
    List.lookup k (if c then [] else l) = none := by
  split
  · rfl
  · exact h

theorem lookup_optIntParam_append_ne (k key : String) (v : Int)
    (rest : List (String × JVal)) (h : (k == key) = false) :
    List.lookup k (optIntParam key v ++ rest) = List.lookup k rest := by
  by_cases hv : v = 0
  · simp only [optIntParam, if_pos hv, List.nil_append]
  · simp only [optIntParam, if_neg hv, List.cons_append, List.nil_append,
      List.lookup, h]

theorem lookup_optIntParam_ne (k key : String) (v : Int) (h : (k == key) = false) :
    List.lookup k (optIntParam key v) = none := by
  by_cases hv : v = 0
  · simp only [optIntParam, if_pos hv, List.lookup]
  · simp only [optIntParam, if_neg hv, List.lookup, h]

theorem lookup_optIntParam_append_self (key : String) (v : Int)
    (rest : List (String × JVal)) (h : List.lookup key rest = none) :
    List.lookup key (optIntParam key v ++ rest) =
      if v = 0 then none else some (JVal.i v) := by
  by_cases hv : v = 0
  · simp only [optIntParam, if_pos hv, List.nil_append]
    exact h
  · simp only [optIntParam, if_neg hv, List.cons_append, List.nil_append,
      List.lookup, beq_self_eq_true]

theorem lookup_optIntParam_self (key : String) (v : Int) :
    List.lookup key (optIntParam key v) = if v = 0 then none else some (JVal.i v) := by
  by_cases hv : v = 0
  · simp only [optIntParam, if_pos hv, List.lookup]
  · simp only [optIntParam, if_neg hv, List.lookup, beq_self_eq_true]

/-- Presence of each geometry key in the advanced_params list: a key maps to
its value iff that value is nonzero. -/
theorem reframeGeometry_lookup (gx gy xs xe ys ye rw rh : Int) :
    (List.lookup ("grid_position_x") (reframeGeometryParams gx gy xs xe ys ye rw rh) =
      if gx = 0 then none else some (JVal.i gx)) ∧
    (List.lookup ("grid_position_y") (reframeGeometryParams gx gy xs xe ys ye rw rh) =
      if gy = 0 then none else some (JVal.i gy)) ∧
    (List.lookup ("x_start") (reframeGeometryParams gx gy xs xe ys ye rw rh) =
      if xs = 0 then none else some (JVal.i xs)) ∧
    (List.lookup ("x_end") (reframeGeometryParams gx gy xs xe ys ye rw rh) =
      if xe = 0 then none else some (JVal.i xe)) ∧
    (List.lookup ("y_start") (reframeGeometryParams gx gy xs xe ys ye rw rh) =
      if ys = 0 then none else some (JVal.i ys)) ∧
    (List.lookup ("y_end") (reframeGeometryParams gx gy xs xe ys ye rw rh) =
      if ye = 0 then none else some (JVal.i ye)) ∧
    (List.lookup ("resized_width") (reframeGeometryParams gx gy xs xe ys ye rw rh) =
      if rw = 0 then none else some (JVal.i rw)) ∧
    (List.lookup ("resized_height") (reframeGeometryParams gx gy xs xe ys ye rw rh) =
      if rh = 0 then none else some (JVal.i rh)) := by
  unfold reframeGeometryParams
  simp only [List.append_assoc]
  refine ⟨?_, ?_, ?_, ?_, ?_, ?_, ?_, ?_⟩
  · rw [lookup_optIntParam_append_self]
    rw [lookup_optIntParam_append_ne _ _ _ _ (by rfl),
      lookup_optIntParam_append_ne _ _ _ _ (by rfl),
      lookup_optIntParam_append_ne _ _ _ _ (by rfl),
      lookup_optIntParam_append_ne _ _ _ _ (by rfl),
      lookup_optIntParam_append_ne _ _ _ _ (by rfl),
      lookup_optIntParam_append_ne _ _ _ _ (by rfl)]
    exact lookup_optIntParam_ne _ _ _ (by rfl)
  · rw [lookup_optIntParam_append_ne _ _ _ _ (by rfl), lookup_optIntParam_append_self]
    rw [lookup_optIntParam_append_ne _ _ _ _ (by rfl),
      lookup_optIntParam_append_ne _ _ _ _ (by rfl),
      lookup_optIntParam_append_ne _ _ _ _ (by rfl),
      lookup_optIntParam_append_ne _ _ _ _ (by rfl),
      lookup_optIntParam_append_ne _ _ _ _ (by rfl)]
    exact lookup_optIntParam_ne _ _ _ (by rfl)
  · rw [lookup_optIntParam_append_ne _ _ _ _ (by rfl),
      lookup_optIntParam_append_ne _ _ _ _ (by rfl), lookup_optIntParam_append_self]
    rw [lookup_optIntParam_append_ne _ _ _ _ (by rfl),
      lookup_optIntParam_append_ne _ _ _ _ (by rfl),
      lookup_optIntParam_append_ne _ _ _ _ (by rfl),
      lookup_optIntParam_append_ne _ _ _ _ (by rfl)]
    exact lookup_optIntParam_ne _ _ _ (by rfl)
  · rw [lookup_optIntParam_append_ne _ _ _ _ (by rfl),
      lookup_optIntParam_append_ne _ _ _ _ (by rfl),
      lookup_optIntParam_append_ne _ _ _ _ (by rfl), lookup_optIntParam_append_self]
    rw [lookup_optIntParam_append_ne _ _ _ _ (by rfl),
      lookup_optIntParam_append_ne _ _ _ _ (by rfl),
      lookup_optIntParam_append_ne _ _ _ _ (by rfl)]
    exact lookup_optIntParam_ne _ _ _ (by rfl)
  · rw [lookup_optIntParam_append_ne _ _ _ _ (by rfl),
      lookup_optIntParam_append_ne _ _ _ _ (by rfl),
      lookup_optIntParam_append_ne _ _ _ _ (by rfl),
      lookup_optIntParam_append_ne _ _ _ _ (by rfl), lookup_optIntParam_append_self]
    rw [lookup_optIntParam_append_ne _ _ _ _ (by rfl),
      lookup_optIntParam_append_ne _ _ _ _ (by rfl)]
    exact lookup_optIntParam_ne _ _ _ (by rfl)
  · rw [lookup_optIntParam_append_ne _ _ _ _ (by rfl),
      lookup_optIntParam_append_ne _ _ _ _ (by rfl),
      lookup_optIntParam_append_ne _ _ _ _ (by rfl),
      lookup_optIntParam_append_ne _ _ _ _ (by rfl),
      lookup_optIntParam_append_ne _ _ _ _ (by rfl), lookup_optIntParam_append_self]
    rw [lookup_optIntParam_append_ne _ _ _ _ (by rfl)]
    exact lookup_optIntParam_ne _ _ _ (by rfl)
  · rw [lookup_optIntParam_append_ne _ _ _ _ (by rfl),
      lookup_optIntParam_append_ne _ _ _ _ (by rfl),
      lookup_optIntParam_append_ne _ _ _ _ (by rfl),
      lookup_optIntParam_append_ne _ _ _ _ (by rfl),
      lookup_optIntParam_append_ne _ _ _ _ (by rfl),
      lookup_optIntParam_append_ne _ _ _ _ (by rfl), lookup_optIntParam_append_self]
    exact lookup_optIntParam_ne _ _ _ (by rfl)
  · rw [lookup_optIntParam_append_ne _ _ _ _ (by rfl),
      lookup_optIntParam_append_ne _ _ _ _ (by rfl),
      lookup_optIntParam_append_ne _ _ _ _ (by rfl),
      lookup_optIntParam_append_ne _ _ _ _ (by rfl),
      lookup_optIntParam_append_ne _ _ _ _ (by rfl),
      lookup_optIntParam_append_ne _ _ _ _ (by rfl),
      lookup_optIntParam_append_ne _ _ _ _ (by rfl)]
    exact lookup_optIntParam_self _ _

/-- C5: the polling configuration of each node matches the per-endpoint
tuning: image generation and image reframe sleep 2 seconds per attempt with a
120-attempt budget; video generation sleeps 3 seconds with a 200-attempt
budget; video modify and video reframe sleep 3 seconds with a 180-attempt
budget. -/
theorem per_endpoint_polling_configuration :
    imageGenerationPoll.sleepSeconds = 2 ∧ imageGenerationPoll.maxAttempts = 120 ∧
    imageReframePoll.sleepSeconds = 2 ∧ imageReframePoll.maxAttempts = 120 ∧
    videoGenerationPoll.sleepSeconds = 3 ∧ videoGenerationPoll.maxAttempts = 200 ∧
    videoModifyPoll.sleepSeconds = 3 ∧ videoModifyPoll.maxAttempts = 180 ∧
    videoReframePoll.sleepSeconds = 3 ∧ videoReframePoll.maxAttempts = 180 :=
  ⟨rfl, rfl, rfl, rfl, rfl, rfl, rfl, rfl, rfl, rfl⟩

/-- C10: for every node and every parameter state, the pre-workflow validator
returns exactly the result of the pre-node validator: the two validations are
the same function, for all seven nodes. -/
theorem validate_workflow_run_eq_node_run :
    (∀ name prompt apiKey, imageGenValidateBeforeWorkflowRun name prompt apiKey =
      imageGenValidateBeforeNodeRun name prompt apiKey) ∧
    (∀ name prompt apiKey, videoGenValidateBeforeWorkflowRun name prompt apiKey =
      videoGenValidateBeforeNodeRun name prompt apiKey) ∧
    (∀ name inputImage apiKey, imageReframeValidateBeforeWorkflowRun name inputImage apiKey =
      imageReframeValidateBeforeNodeRun name inputImage apiKey) ∧
    (∀ name inputVideo apiKey, videoReframeValidateBeforeWorkflowRun name inputVideo apiKey =
      videoReframeValidateBeforeNodeRun name inputVideo apiKey) ∧
    (∀ name inputVideo prompt apiKey,
      videoModifyValidateBeforeWorkflowRun name inputVideo prompt apiKey =
      videoModifyValidateBeforeNodeRun name inputVideo prompt apiKey) ∧
    (∀ name apiKey, listCameraMotionsValidateBeforeWorkflowRun name apiKey =
      listCameraMotionsValidateBeforeNodeRun name apiKey) ∧
    (∀ name apiKey, listConceptsValidateBeforeWorkflowRun name apiKey =
      listConceptsValidateBeforeNodeRun name apiKey) :=
  ⟨fun _ _ _ => rfl, fun _ _ _ => rfl, fun _ _ _ => rfl, fun _ _ _ => rfl,
   fun _ _ _ _ => rfl, fun _ _ => rfl, fun _ _ => rfl⟩

/-- C8: an image generation request with reference type character_reference
and a resolved reference URL carries character_ref.identity0.images equal to
the single-element list of that URL, and no weight key occurs anywhere inside
the character_ref sub-object. -/
theorem character_reference_payload_shape
    (prompt model aspectRatio url : String) (weight : JVal) :
    List.lookup ("character_ref")
      (imageGenParams prompt model aspectRatio ("character_reference") (some url) weight) =
      some (JVal.obj [(("identity0"), JVal.obj [(("images"), JVal.arr [JVal.s url])])]) ∧
    jvalHasKey ("weight")
      (JVal.obj [(("identity0"), JVal.obj [(("images"), JVal.arr [JVal.s url])])]) = false := by
  constructor
  · rfl
  · simp [jvalHasKey, jvalFieldsHasKey, jvalListHasKey]

/-- C6: in the image reframe and video reframe payloads, each of the eight
geometry fields is present iff its parameter value is nonzero; with all eight
inputs at 0 the advanced-parameter list is empty, and with x_start = 10 and
all others 0 it contains exactly the x_start entry with value 10. -/
theorem reframe_geometry_field_presence :
    (∀ (mediaUrl model aspectRatio prompt : String) (gx gy xs xe ys ye rw rh : Int),
      (List.lookup ("grid_position_x")
        (imageReframeParams mediaUrl model aspectRatio prompt gx gy xs xe ys ye rw rh) =
        if gx = 0 then none else some (JVal.i gx)) ∧
      (List.lookup ("grid_position_y")
        (imageReframeParams mediaUrl model aspectRatio prompt gx gy xs xe ys ye rw rh) =
        if gy = 0 then none else some (JVal.i gy)) ∧
      (List.lookup ("x_start")
        (imageReframeParams mediaUrl model aspectRatio prompt gx gy xs xe ys ye rw rh) =
        if xs = 0 then none else some (JVal.i xs)) ∧
      (List.lookup ("x_end")
        (imageReframeParams mediaUrl model aspectRatio prompt gx gy xs xe ys ye rw rh) =
        if xe = 0 then none else some (JVal.i xe)) ∧
      (List.lookup ("y_start")
        (imageReframeParams mediaUrl model aspectRatio prompt gx gy xs xe ys ye rw rh) =
        if ys = 0 then none else some (JVal.i ys)) ∧
      (List.lookup ("y_end")
        (imageReframeParams mediaUrl model aspectRatio prompt gx gy xs xe ys ye rw rh) =
        if ye = 0 then none else some (JVal.i ye)) ∧
      (List.lookup ("resized_width")
        (imageReframeParams mediaUrl model aspectRatio prompt gx gy xs xe ys ye rw rh) =
        if rw = 0 then none else some (JVal.i rw)) ∧
      (List.lookup ("resized_height")
        (imageReframeParams mediaUrl model aspectRatio prompt gx gy xs xe ys ye rw rh) =
        if rh = 0 then none else some (JVal.i rh))) ∧
    (∀ (mediaUrl model aspectRatio prompt : String) (gx gy xs xe ys ye rw rh : Int),
      (List.lookup ("grid_position_x")
        (videoReframeParams mediaUrl model aspectRatio prompt gx gy xs xe ys ye rw rh) =
        if gx = 0 then none else some (JVal.i gx)) ∧
      (List.lookup ("grid_position_y")
        (videoReframeParams mediaUrl model aspectRatio prompt gx gy xs xe ys ye rw rh) =
        if gy = 0 then none else some (JVal.i gy)) ∧
      (List.lookup ("x_start")
        (videoReframeParams mediaUrl model aspectRatio prompt gx gy xs xe ys ye rw rh) =
        if xs = 0 then none else some (JVal.i xs)) ∧
      (List.lookup ("x_end")
        (videoReframeParams mediaUrl model aspectRatio prompt gx gy xs xe ys ye rw rh) =
        if xe = 0 then none else some (JVal.i xe)) ∧
      (List.lookup ("y_start")
        (videoReframeParams mediaUrl model aspectRatio prompt gx gy xs xe ys ye rw rh) =
        if ys = 0 then none else some (JVal.i ys)) ∧
      (List.lookup ("y_end")
        (videoReframeParams mediaUrl model aspectRatio prompt gx gy xs xe ys ye rw rh) =
        if ye = 0 then none else some (JVal.i ye)) ∧
      (List.lookup ("resized_width")
        (videoReframeParams mediaUrl model aspectRatio prompt gx gy xs xe ys ye rw rh) =
        if rw = 0 then none else some (JVal.i rw)) ∧
      (List.lookup ("resized_height")
        (videoReframeParams mediaUrl model aspectRatio prompt gx gy xs xe ys ye rw rh) =
        if rh = 0 then none else some (JVal.i rh))) ∧
    reframeGeometryParams 0 0 0 0 0 0 0 0 = [] ∧
    reframeGeometryParams 0 0 10 0 0 0 0 0 = [(("x_start"), JVal.i 10)] := by
  refine ⟨?_, ?_, rfl, rfl⟩
  · intro mediaUrl model aspectRatio prompt gx gy xs xe ys ye rw rh
    have hg := reframeGeometry_lookup gx gy xs xe ys ye rw rh
    refine ⟨?_, ?_, ?_, ?_, ?_, ?_, ?_, ?_⟩ <;>
      (unfold imageReframeParams
       simp only [List.append_assoc]
       rw [lookup_append_of_none _ (by rfl), lookup_ite_append_none _ _ _ _ (by rfl)])
    · exact hg.1
    · exact hg.2.1
    · exact hg.2.2.1
    · exact hg.2.2.2.1
    · exact hg.2.2.2.2.1
    · exact hg.2.2.2.2.2.1
    · exact hg.2.2.2.2.2.2.1
    · exact hg.2.2.2.2.2.2.2
  · intro mediaUrl model aspectRatio prompt gx gy xs xe ys ye rw rh
    have hg := reframeGeometry_lookup gx gy xs xe ys ye rw rh
    refine ⟨?_, ?_, ?_, ?_, ?_, ?_, ?_, ?_⟩ <;>
      (unfold videoReframeParams
       simp only [List.append_assoc]
       rw [lookup_append_of_none _ (by rfl), lookup_ite_append_none _ _ _ _ (by rfl)])
    · exact hg.1
    · exact hg.2.1
    · exact hg.2.2.1
    · exact hg.2.2.2.1
    · exact hg.2.2.2.2.1
    · exact hg.2.2.2.2.2.1
    · exact hg.2.2.2.2.2.2.1
    · exact hg.2.2.2.2.2.2.2

/-- C7: a video generation payload for model ray-1-6 contains neither a
resolution key nor a duration key, regardless of the resolution and duration
parameter values; for ray-2 and ray-flash-2 both keys are included with the
parameter values. -/
theorem ray16_omits_resolution_and_duration
    (prompt model aspectRatio16 aspectRatio resolution duration : String)
    (loopVideo : Bool) (frame0Url frame1Url : Option String) :
    (model = ("ray-1-6") →
      List.lookup ("resolution") (videoGenParams prompt model aspectRatio16 aspectRatio
        resolution duration loopVideo frame0Url frame1Url) = none ∧
      List.lookup ("duration") (videoGenParams prompt model aspectRatio16 aspectRatio
        resolution duration loopVideo frame0Url frame1Url) = none) ∧
    ((model = ("ray-2") ∨ model = ("ray-flash-2")) →
      List.lookup ("resolution") (videoGenParams prompt model aspectRatio16 aspectRatio
        resolution duration loopVideo frame0Url frame1Url) = some (JVal.s resolution) ∧
      List.lookup ("duration") (videoGenParams prompt model aspectRatio16 aspectRatio
        resolution duration loopVideo frame0Url frame1Url) = some (JVal.s duration)) := by
  constructor
  · intro h
    subst h
    constructor <;>
      (unfold videoGenParams
       simp only [List.append_assoc]
       rw [lookup_append_of_none _ (by rfl), lookup_ite_append_none _ _ _ _ (by rfl),
         if_neg (by decide)]
       simp only [List.nil_append]
       rw [lookup_ite_append_none _ _ _ _ (by rfl)]
       exact lookup_ite_inv_none _ _ _ (by rfl))
  · intro h
    rcases h with h | h <;> subst h <;>
      refine ⟨?_, ?_⟩ <;>
        (unfold videoGenParams
         simp only [List.append_assoc]
         rw [lookup_append_of_none _ (by rfl), lookup_ite_append_none _ _ _ _ (by rfl)]
         exact lookup_ite_append_pos _ (by decide) _ _ _ (by rfl))

/-- Witness for C7: at concrete parameter values, the ray-1-6 payload has no
resolution key while the ray-2 payload carries resolution 720p. -/
theorem ray16_omits_resolution_and_duration_w :
    List.lookup ("resolution") (videoGenParams ("p") ("ray-1-6") ("16:9") ("16:9")
      ("720p") ("5s") false none none) = none ∧
    List.lookup ("resolution") (videoGenParams ("p") ("ray-2") ("16:9") ("16:9")
      ("720p") ("5s") false none none) = some (JVal.s ("720p")) :=
  ⟨((ray16_omits_resolution_and_duration ("p") ("ray-1-6") ("16:9") ("16:9")
      ("720p") ("5s") false none none).1 rfl).1,
   ((ray16_omits_resolution_and_duration ("p") ("ray-2") ("16:9") ("16:9")
      ("720p") ("5s") false none none).2 (Or.inl rfl)).1⟩

/-- Characterization of one polling run over any remaining fuel and starting
attempt: the result is completed iff a completed state is observed, failed
iff a failed state is observed with no completed observation before it, and
timed out iff every one of the fuel observations is non-terminal; moreover a
completed result returns an observed completed job and a failed result
carries the failure_reason of an observed failed job. -/
theorem pollGo_spec (get : Nat → Generation) (m : Nat) :
    ∀ (fuel attempt : Nat),
      ((∃ g, (pollGo get m attempt fuel).1 = PollResult.completedGen g) ↔
        ∃ g ∈ (pollGo get m attempt fuel).2, g.state = ("completed")) ∧
      ((∃ r, (pollGo get m attempt fuel).1 = PollResult.failed r) ↔
        ∃ pre g post, (pollGo get m attempt fuel).2 = pre ++ g :: post ∧
          g.state = ("failed") ∧ ∀ gp ∈ pre, gp.state ≠ ("completed")) ∧
      ((pollGo get m attempt fuel).1 = PollResult.timedOut m ↔
        ((pollGo get m attempt fuel).2.length = fuel ∧
         ∀ g ∈ (pollGo get m attempt fuel).2,
           g.state ≠ ("completed") ∧ g.state ≠ ("failed"))) ∧
      (∀ g, (pollGo get m attempt fuel).1 = PollResult.completedGen g →
        g ∈ (pollGo get m attempt fuel).2 ∧ g.state = ("completed")) ∧
      (∀ r, (pollGo get m attempt fuel).1 = PollResult.failed r →
        ∃ g ∈ (pollGo get m attempt fuel).2, g.state = ("failed") ∧
          r = g.failure_reason) := by
  intro fuel
  induction fuel with
  | zero =>
    intro attempt
    refine ⟨?_, ?_, ?_, ?_, ?_⟩
    · simp [pollGo]
    · constructor
      · rintro ⟨r, hr⟩
        exact PollResult.noConfusion hr
      · rintro ⟨pre, g, post, hdec, -, -⟩
        simp only [pollGo] at hdec
        exact absurd hdec.symm (List.append_ne_nil_of_right_ne_nil pre (List.cons_ne_nil g post))
    · simp [pollGo]
    · intro g hg
      exact PollResult.noConfusion hg
    · intro r hr
      exact PollResult.noConfusion hr
  | succ fuel ih =>
    intro attempt
    by_cases hc : (get (attempt + 1)).state = ("completed")
    · have hstep : pollGo get m attempt (fuel + 1) =
          (PollResult.completedGen (get (attempt + 1)), [get (attempt + 1)]) := by
        simp only [pollGo]
        rw [if_pos hc]
      refine ⟨?_, ?_, ?_, ?_, ?_⟩
      · constructor
        · rintro ⟨g, -⟩
          exact ⟨get (attempt + 1), by rw [hstep]; exact List.mem_singleton_self _, hc⟩
        · rintro -
          exact ⟨get (attempt + 1), by rw [hstep]⟩
      · constructor
        · rintro ⟨r, hr⟩
          rw [hstep] at hr
          exact PollResult.noConfusion hr
        · rintro ⟨pre, g, post, hdec, hgf, -⟩
          rw [hstep] at hdec
          cases pre with
          | nil =>
            simp only [List.nil_append, List.cons.injEq] at hdec
            rw [← hdec.1] at hgf
            rw [hc] at hgf
            exact absurd hgf (by decide)
          | cons a t =>
            simp only [List.cons_append, List.cons.injEq] at hdec
            exact absurd hdec.2.symm
              (List.append_ne_nil_of_right_ne_nil t (List.cons_ne_nil g post))
      · constructor
        · intro hr
          rw [hstep] at hr
          exact PollResult.noConfusion hr
        · rintro ⟨-, hall⟩
          have := hall (get (attempt + 1)) (by rw [hstep]; exact List.mem_singleton_self _)
          exact absurd hc this.1
      · intro g hg
        rw [hstep] at hg
        simp only [PollResult.completedGen.injEq] at hg
        subst hg
        exact ⟨by rw [hstep]; exact List.mem_singleton_self _, hc⟩
      · intro r hr
        rw [hstep] at hr
        exact PollResult.noConfusion hr
    · by_cases hf : (get (attempt + 1)).state = ("failed")
      · have hstep : pollGo get m attempt (fuel + 1) =
            (PollResult.failed (get (attempt + 1)).failure_reason, [get (attempt + 1)]) := by
          simp only [pollGo]
          rw [if_neg hc, if_pos hf]
        refine ⟨?_, ?_, ?_, ?_, ?_⟩
        · constructor
          · rintro ⟨g, hg⟩
            rw [hstep] at hg
            exact PollResult.noConfusion hg
          · rintro ⟨g, hg, hgs⟩
            rw [hstep] at hg
            simp only [List.mem_singleton] at hg
            subst hg
            exact absurd hgs hc
        · constructor
          · rintro -
            refine ⟨[], get (attempt + 1), [], by rw [hstep]; rfl, hf, by simp⟩
          · rintro -
            exact ⟨(get (attempt + 1)).failure_reason, by rw [hstep]⟩
        · constructor
          · intro hr
            rw [hstep] at hr
            exact PollResult.noConfusion hr
          · rintro ⟨-, hall⟩
            have := hall (get (attempt + 1)) (by rw [hstep]; exact List.mem_singleton_self _)
            exact absurd hf this.2
        · intro g hg
          rw [hstep] at hg
          exact PollResult.noConfusion hg
        · intro r hr
          rw [hstep] at hr
          simp only [PollResult.failed.injEq] at hr
          exact ⟨get (attempt + 1), by rw [hstep]; exact List.mem_singleton_self _, hf, hr.symm⟩
      · have hstep : pollGo get m attempt (fuel + 1) =
            ((pollGo get m (attempt + 1) fuel).1,
              get (attempt + 1) :: (pollGo get m (attempt + 1) fuel).2) := by
          simp only [pollGo]
          rw [if_neg hc, if_neg hf]
        have hstep₁ : (pollGo get m attempt (fuel + 1)).1 =
            (pollGo get m (attempt + 1) fuel).1 := by
          rw [hstep]
        have hstep₂ : (pollGo get m attempt (fuel + 1)).2 =
            get (attempt + 1) :: (pollGo get m (attempt + 1) fuel).2 := by
          rw [hstep]
        obtain ⟨ih1, ih2, ih3, ih4, ih5⟩ := ih (attempt + 1)
        refine ⟨?_, ?_, ?_, ?_, ?_⟩
        · rw [hstep₁, hstep₂, ih1]
          constructor
          · rintro ⟨g, hg, hgs⟩
            exact ⟨g, List.mem_cons_of_mem _ hg, hgs⟩
          · rintro ⟨g, hg, hgs⟩
            rcases List.mem_cons.mp hg with hg | hg
            · subst hg
              exact absurd hgs hc
            · exact ⟨g, hg, hgs⟩
        · rw [hstep₁, hstep₂, ih2]
          constructor
          · rintro ⟨pre, g, post, hdec, hgf, hpre⟩
            refine ⟨get (attempt + 1) :: pre, g, post, by rw [hdec, List.cons_append], hgf, ?_⟩
            intro gp hgp
            rcases List.mem_cons.mp hgp with hgp | hgp
            · subst hgp
              exact hc
            · exact hpre gp hgp
          · rintro ⟨pre, g, post, hdec, hgf, hpre⟩
            cases pre with
            | nil =>
              simp only [List.nil_append, List.cons.injEq] at hdec
              rw [hdec.1] at hf
              exact absurd hgf hf
            | cons a t =>
              simp only [List.cons_append, List.cons.injEq] at hdec
              exact ⟨t, g, post, hdec.2, hgf, fun gp hgp => hpre gp (List.mem_cons_of_mem _ hgp)⟩
        · rw [hstep₁, hstep₂, ih3]
          constructor
          · rintro ⟨hlen, hall⟩
            refine ⟨by simp [hlen], ?_⟩
            intro g hg
            rcases List.mem_cons.mp hg with hg | hg
            · subst hg
              exact ⟨hc, hf⟩
            · exact hall g hg
          · rintro ⟨hlen, hall⟩
            simp only [List.length_cons, Nat.add_right_cancel_iff] at hlen
            exact ⟨hlen, fun g hg => hall g (List.mem_cons_of_mem _ hg)⟩
        · rw [hstep₁, hstep₂]
          intro g hg
          obtain ⟨hmem, hgs⟩ := ih4 g hg
          exact ⟨List.mem_cons_of_mem _ hmem, hgs⟩
        · rw [hstep₁, hstep₂]
          intro r hr
          obtain ⟨g, hmem, hgf, hrr⟩ := ih5 r hr
          exact ⟨g, List.mem_cons_of_mem _ hmem, hgf, hrr⟩

/-- C1: a polling run with budget maxAttempts ends Completed (returning the
completed job record whose asset URL the caller reads) iff some poll observes
state completed; it ends Failed carrying the failure_reason of the observed
failed job iff some poll observes failed with no completed observation before
it; and it ends TimedOut with the budget iff all maxAttempts observations are
non-terminal. -/
theorem submit_and_wait_terminal_characterization (get : Nat → Generation) (maxAttempts : Nat) :
    ((∃ g, (pollRun get maxAttempts).1 = PollResult.completedGen g) ↔
      ∃ g ∈ (pollRun get maxAttempts).2, g.state = ("completed")) ∧
    ((∃ r, (pollRun get maxAttempts).1 = PollResult.failed r) ↔
      ∃ pre g post, (pollRun get maxAttempts).2 = pre ++ g :: post ∧
        g.state = ("failed") ∧ ∀ gp ∈ pre, gp.state ≠ ("completed")) ∧
    ((pollRun get maxAttempts).1 = PollResult.timedOut maxAttempts ↔
      ((pollRun get maxAttempts).2.length = maxAttempts ∧
       ∀ g ∈ (pollRun get maxAttempts).2,
         g.state ≠ ("completed") ∧ g.state ≠ ("failed"))) ∧
    (∀ g, (pollRun get maxAttempts).1 = PollResult.completedGen g →
      g ∈ (pollRun get maxAttempts).2 ∧ g.state = ("completed")) ∧
    (∀ r, (pollRun get maxAttempts).1 = PollResult.failed r →
      ∃ g ∈ (pollRun get maxAttempts).2, g.state = ("failed") ∧
        r = g.failure_reason) :=
  pollGo_spec get maxAttempts maxAttempts 0

/-- Witness for C1: on a job that is completed at the first poll, the
120-attempt run returns that completed job, which was observed. -/
theorem submit_and_wait_terminal_characterization_w :
    completedGeneration ∈ (pollRun alwaysCompleted 120).2 ∧
    completedGeneration.state = ("completed") :=
  (submit_and_wait_terminal_characterization alwaysCompleted 120).2.2.2.1
    completedGeneration rfl

/-- Counterexample to C2 as stated: the URL https://example.com/localhost.jpg
has host example.com, which is neither localhost nor 127.0.0.1, yet the
resolver does not return it unchanged: it performs one fetch and one upload
and returns the uploaded static URL, because the code tests substring
containment on the whole URL rather than the host. -/
theorem resolve_url_host_counterexample :
    urlHost ("https://example.com/localhost.jpg") = ("example.com") ∧
    urlHost ("https://example.com/localhost.jpg") ≠ ("localhost") ∧
    urlHost ("https://example.com/localhost.jpg") ≠ ("127.0.0.1") ∧
    getImageUrlForApi httpEnv0
      (some (RefArtifact.imageUrlArtifact ("https://example.com/localhost.jpg"))) =
      (Except.ok (some ("https://static.example/luma_ref_0.jpg")),
       [Effect.fetch ("https://example.com/localhost.jpg"),
        Effect.upload ("luma_ref_0.jpg")]) := by
  refine ⟨by decide, by decide, by decide, rfl⟩

/-- C2 amended: a URL reference is returned unchanged with no effects iff the
URL string contains neither localhost nor 127.0.0.1 as a substring; when it
does contain one, the resolver performs exactly one fetch, and on a
successful status exactly one upload returning the uploaded public URL, while
a status of 400 or above fails with the HTTP status error after the single
fetch and no upload. -/
theorem resolve_url_localhost_substring_policy (http : HttpEnv) (url : String) :
    (isLocalUrl url = false →
      getImageUrlForApi http (some (RefArtifact.imageUrlArtifact url)) =
        (Except.ok (some url), [])) ∧
    (isLocalUrl url = true →
      (http.fetchStatus url < 400 →
        getImageUrlForApi http (some (RefArtifact.imageUrlArtifact url)) =
          (Except.ok (some (http.saveStaticFile (http.fetchBody url)
              (lumaRefFilename http.timestampMs))),
           [Effect.fetch url, Effect.upload (lumaRefFilename http.timestampMs)])) ∧
      (400 ≤ http.fetchStatus url →
        getImageUrlForApi http (some (RefArtifact.imageUrlArtifact url)) =
          (Except.error (Err.httpStatusError (http.fetchStatus url)),
           [Effect.fetch url]))) := by
  refine ⟨?_, ?_⟩
  · intro h
    simp [getImageUrlForApi, h]
  · intro h
    refine ⟨?_, ?_⟩
    · intro hs
      have hns : ¬ 400 ≤ http.fetchStatus url := by omega
      simp [getImageUrlForApi, h, hns]
    · intro hs
      simp [getImageUrlForApi, h, hs]

/-- Witness for C2 amended: a localhost URL with a 200 status is fetched once
and re-uploaded once, returning the static URL. -/
theorem resolve_url_localhost_substring_policy_w :
    getImageUrlForApi httpEnv0
      (some (RefArtifact.imageUrlArtifact ("http://localhost:8080/ref.jpg"))) =
      (Except.ok (some ("https://static.example/luma_ref_0.jpg")),
       [Effect.fetch ("http://localhost:8080/ref.jpg"),
        Effect.upload ("luma_ref_0.jpg")]) :=
  ((resolve_url_localhost_substring_policy httpEnv0
      ("http://localhost:8080/ref.jpg")).2 (by decide)).1 (by decide)

/-- Counterexample to C3: a complete successful image generation run whose
reference was a localhost URL uploads the resolver file luma_ref_0.jpg to
public storage, yet the whole invocation performs no deletion effect at all:
image_generation.py has no cleanup path for resolver uploads. -/
theorem reference_upload_not_deleted_counterexample :
    (imgGenProcess imgGenEnvLocalRef).2.any (effectIsUploadNamed ("luma_ref_0.jpg")) = true ∧
    (imgGenProcess imgGenEnvLocalRef).2.any effectIsDelete = false ∧
    (imgGenProcess imgGenEnvLocalRef).1 = Except.ok () :=
  ⟨rfl, rfl, rfl⟩

/-- C3 amended: the nodes that resolve references through
PublicArtifactUrlParameter (video generation frames, image and video reframe
inputs, video modify input and first frame) delete the uploaded artifacts in
a finally block on every exit path, success or failure; the image generation
node (which uploads through its own resolver) performs no such cleanup, as
the counterexample shows. -/
theorem uploaded_reference_cleanup_always :
    (∀ env : VideoGenEnv,
      Effect.deleteArtifact ("start_frame") ∈ (videoGenProcess env).2 ∧
      Effect.deleteArtifact ("end_frame") ∈ (videoGenProcess env).2) ∧
    (∀ env : ImageReframeEnv,
      Effect.deleteArtifact ("input_image") ∈ (imageReframeProcess env).2) ∧
    (∀ env : VideoModifyEnv,
      Effect.deleteArtifact ("input_video") ∈ (videoModifyProcess env).2 ∧
      Effect.deleteArtifact ("first_frame") ∈ (videoModifyProcess env).2) ∧
    (∀ env : VideoReframeEnv,
      Effect.deleteArtifact ("input_video") ∈ (videoReframeProcess env).2) := by
  refine ⟨?_, ?_, ?_, ?_⟩
  · intro env
    unfold videoGenProcess
    rcases hv : videoGenInner env with ⟨r, fx⟩
    cases r <;> simp
  · intro env
    unfold imageReframeProcess
    rcases hv : imageReframeInner env with ⟨r, fx⟩
    cases r <;> simp
  · intro env
    unfold videoModifyProcess
    rcases hv : videoModifyInner env with ⟨r, fx⟩
    cases r <;> simp
  · intro env
    unfold videoReframeProcess
    rcases hv : videoReframeInner env with ⟨r, fx⟩
    cases r <;> simp

/-- Counterexample to C4 as stated: resolving a null reference in image
generation does not fail; it silently returns an absent result with no
effects. -/
theorem resolve_null_reference_counterexample :
    getImageUrlForApi httpEnv0 none = (Except.ok none, []) := rfl

/-- C4 amended: image generation resolves a null reference to an absent
result with no effects (its caller then omits the reference from the
payload), while the reframe flow fails with the Input image is required
ValueError when the resolved input URL is absent. -/
theorem null_or_empty_reference_handling :
    (∀ http : HttpEnv, getImageUrlForApi http none = (Except.ok none, [])) ∧
    (∀ env : ImageReframeEnv, env.apiKey ≠ ("") → env.inputImagePublicUrl = none →
      (imageReframeProcess env).1 =
        Except.error (Err.valueError ("Input image is required"))) := by
  refine ⟨fun _ => rfl, ?_⟩
  intro env hk hi
  simp [imageReframeProcess, imageReframeInner, hk, hi]

/-- Witness for C4 amended: a concrete reframe invocation with an absent
resolved input fails with the Input image is required error. -/
theorem null_or_empty_reference_handling_w :
    (imageReframeProcess imageReframeEnvNoInput).1 =
      Except.error (Err.valueError ("Input image is required")) :=
  null_or_empty_reference_handling.2 imageReframeEnvNoInput (by decide) rfl

/-! Helper lemmas for C9: no publish effect occurs before the success tail. -/

theorem any_publish_ite_log (c : Prop) [Decidable c] (s : String) :
    ((if c then [Effect.log s] else []).any effectIsPublish) = false := by
  split <;> rfl

theorem any_publish_ite_log_inv (c : Prop) [Decidable c] (s : String) :
    ((if c then [] else [Effect.log s]).any effectIsPublish) = false := by
  split <;> rfl

theorem any_publish_pollLogs (n : Nat) (l : List Generation) :
    (pollLogsFrom n l).any effectIsPublish = false := by
  induction l generalizing n with
  | nil => rfl
  | cons g t ih =>
    simp only [pollLogsFrom, List.any_append]
    rw [ih]
    simp only [Bool.or_false]
    split
    · rfl
    · split <;> rfl

theorem any_publish_getImageUrl (http : HttpEnv) (r : Option RefArtifact) :
    ((getImageUrlForApi http r).2).any effectIsPublish = false := by
  rcases r with _ | a
  · rfl
  · cases a with
    | imageArtifact c => rfl
    | imageUrlArtifact url =>
      simp only [getImageUrlForApi]
      split
      · split <;> rfl
      · rfl

theorem any_publish_refLog (t u : String) :
    (imageGenRefLog t u).any effectIsPublish = false := by
  unfold imageGenRefLog
  split
  · rfl
  · split
    · rfl
    · split
      · rfl
      · split <;> rfl

theorem imgGenBuildParams_noPub (env : ImgGenEnv) :
    ((imgGenBuildParams env).2).any effectIsPublish = false := by
  simp only [imgGenBuildParams]
  split
  · rfl
  · split
    · rfl
    · split
      · rfl
      · split
        · rfl
        · rename_i art hart
          split
          · rename_i e fxr heq
            have hg : fxr.any effectIsPublish = false := by
              have hh := any_publish_getImageUrl env.http (some art)
              rw [heq] at hh
              exact hh
            simp [List.any_append, hg, effectIsPublish]
          · rename_i urlOpt fxr heq
            have hg : fxr.any effectIsPublish = false := by
              have hh := any_publish_getImageUrl env.http (some art)
              rw [heq] at hh
              exact hh
            rcases urlOpt with _ | u <;>
              simp [List.any_append, hg, effectIsPublish, any_publish_refLog]

theorem imgGenRunTail_error_noPub (env : ImgGenEnv) (params : List (String × JVal))
    (e : Err) (h : (imgGenRunTail env params).1 = Except.error e) :
    ((imgGenRunTail env params).2).any effectIsPublish = false := by
  unfold imgGenRunTail at h ⊢
  rcases hcr : env.createResult with msg | genId
  · simp only [hcr] at h ⊢
    simp [effectIsPublish]
  · simp only [hcr] at h ⊢
    rcases hp : (pollRun env.pollStates imageGenerationPoll.maxAttempts).1 with g | reason | n
    · simp only [hp] at h ⊢
      by_cases hs : 400 ≤ env.http.fetchStatus g.assetImage
      · simp only [if_pos hs] at h ⊢
        simp [List.any_append, effectIsPublish, any_publish_pollLogs]
      · simp only [if_neg hs] at h ⊢
        exact Except.noConfusion h
    · simp only [hp] at h ⊢
      simp [List.any_append, effectIsPublish, any_publish_pollLogs]
    · simp only [hp] at h ⊢
      simp [List.any_append, effectIsPublish, any_publish_pollLogs]

theorem imgGenInner_error_noPub (env : ImgGenEnv) (e : Err)
    (h : (imgGenInner env).1 = Except.error e) :
    ((imgGenInner env).2).any effectIsPublish = false := by
  unfold imgGenInner at h ⊢
  rcases hbp : imgGenBuildParams env with ⟨r, fx⟩
  simp only [hbp] at h ⊢
  have hfx : fx.any effectIsPublish = false := by
    have hh := imgGenBuildParams_noPub env
    rw [hbp] at hh
    exact hh
  cases r with
  | error e2 => exact hfx
  | ok params =>
    have ht : (imgGenRunTail env params).1 = Except.error e := h
    simp [List.any_append, hfx, imgGenRunTail_error_noPub env params e ht]

theorem imgGenProcess_error_and_publish (env : ImgGenEnv) :
    ((imgGenProcess env).2.any effectIsPublish = true → (imgGenProcess env).1 = Except.ok ()) ∧
    (∀ e, (imgGenProcess env).1 = Except.error e →
      Effect.log (imageGenFailLine e) ∈ (imgGenProcess env).2 ∧
      (imgGenProcess env).2.any effectIsPublish = false) := by
  unfold imgGenProcess
  rcases hi : imgGenInner env with ⟨r, fx⟩
  cases r with
  | ok a =>
    refine ⟨fun _ => rfl, ?_⟩
    intro e h
    exact Except.noConfusion h
  | error e0 =>
    have hfx : fx.any effectIsPublish = false := by
      have hh := imgGenInner_error_noPub env e0 (by rw [hi])
      rw [hi] at hh
      exact hh
    constructor
    · intro hp
      simp [List.any_append, hfx, effectIsPublish] at hp
    · intro e h
      have he : e0 = e := by
        injection h
      subst he
      refine ⟨by simp, ?_⟩
      simp [List.any_append, hfx, effectIsPublish]

theorem videoGenParamLogs_noPub (env : VideoGenEnv) :
    (videoGenParamLogs env).any effectIsPublish = false := by
  rcases h0 : videoGenFrame0 env with _ | u <;>
    rcases h1 : videoGenFrame1 env with _ | v <;>
      by_cases hl : env.loopVideo = true <;>
        simp [videoGenParamLogs, h0, h1, hl, effectIsPublish, List.any_append]

theorem videoGenInner_error_noPub (env : VideoGenEnv) (e : Err)
    (h : (videoGenInner env).1 = Except.error e) :
    ((videoGenInner env).2).any effectIsPublish = false := by
  unfold videoGenInner at h ⊢
  by_cases hk : env.apiKey = ("")
  · simp only [if_pos hk] at h ⊢
    rfl
  · simp only [if_neg hk] at h ⊢
    by_cases hpr : env.prompt = ("")
    · simp only [if_pos hpr] at h ⊢
      rfl
    · simp only [if_neg hpr] at h ⊢
      rcases hcr : env.createResult with msg | genId
      · simp only [hcr] at h ⊢
        simp [List.any_append, effectIsPublish, videoGenParamLogs_noPub]
      · simp only [hcr] at h ⊢
        rcases hp : (pollRun env.pollStates videoGenerationPoll.maxAttempts).1 with g | reason | n
        · simp only [hp] at h ⊢
          rcases hfr : env.fileRead g.assetVideo with msg | bytes
          · simp only [hfr] at h ⊢
            simp [List.any_append, effectIsPublish, videoGenParamLogs_noPub,
              any_publish_pollLogs]
          · simp only [hfr] at h ⊢
            exact Except.noConfusion h
        · simp only [hp] at h ⊢
          simp [List.any_append, effectIsPublish, videoGenParamLogs_noPub,
            any_publish_pollLogs]
        · simp only [hp] at h ⊢
          simp [List.any_append, effectIsPublish, videoGenParamLogs_noPub,
            any_publish_pollLogs]

theorem videoGenProcess_error_and_publish (env : VideoGenEnv) :
    ((videoGenProcess env).2.any effectIsPublish = true →
      (videoGenProcess env).1 = Except.ok ()) ∧
    (∀ e, (videoGenProcess env).1 = Except.error e →
      Effect.log (videoGenFailLine e) ∈ (videoGenProcess env).2 ∧
      (videoGenProcess env).2.any effectIsPublish = false) := by
  unfold videoGenProcess
  rcases hi : videoGenInner env with ⟨r, fx⟩
  cases r with
  | ok a =>
    refine ⟨fun _ => rfl, ?_⟩
    intro e h
    exact Except.noConfusion h
  | error e0 =>
    have hfx : fx.any effectIsPublish = false := by
      have hh := videoGenInner_error_noPub env e0 (by rw [hi])
      rw [hi] at hh
      exact hh
    constructor
    · intro hp
      simp [List.any_append, hfx, effectIsPublish] at hp
    · intro e h
      have he : e0 = e := by
        injection h
      subst he
      refine ⟨by simp, ?_⟩
      simp [List.any_append, hfx, effectIsPublish]

theorem imageReframeInner_error_noPub (env : ImageReframeEnv) (e : Err)
    (h : (imageReframeInner env).1 = Except.error e) :
    ((imageReframeInner env).2).any effectIsPublish = false := by
  unfold imageReframeInner at h ⊢
  by_cases hk : env.apiKey = ("")
  · simp only [if_pos hk] at h ⊢
    rfl
  · simp only [if_neg hk] at h ⊢
    rcases hiu : env.inputImagePublicUrl with _ | imageUrl
    · simp only [hiu] at h ⊢
      rfl
    · simp only [hiu] at h ⊢
      rcases hcr : env.createResult with msg | genId
      · simp only [hcr] at h ⊢
        simp [List.any_append, effectIsPublish, any_publish_ite_log,
          any_publish_ite_log_inv]
      · simp only [hcr] at h ⊢
        rcases hp : (pollRun env.pollStates imageReframePoll.maxAttempts).1 with g | reason | n
        · simp only [hp] at h ⊢
          rcases hfr : env.fileRead g.assetImage with msg | bytes
          · simp only [hfr] at h ⊢
            simp [List.any_append, effectIsPublish, any_publish_ite_log,
              any_publish_ite_log_inv, any_publish_pollLogs]
          · simp only [hfr] at h ⊢
            exact Except.noConfusion h
        · simp only [hp] at h ⊢
          simp [List.any_append, effectIsPublish, any_publish_ite_log,
            any_publish_ite_log_inv, any_publish_pollLogs]
        · simp only [hp] at h ⊢
          simp [List.any_append, effectIsPublish, any_publish_ite_log,
            any_publish_ite_log_inv, any_publish_pollLogs]

theorem imageReframeProcess_error_and_publish (env : ImageReframeEnv) :
    ((imageReframeProcess env).2.any effectIsPublish = true →
      (imageReframeProcess env).1 = Except.ok ()) ∧
    (∀ e, (imageReframeProcess env).1 = Except.error e →
      Effect.log (imageReframeFailLine e) ∈ (imageReframeProcess env).2 ∧
      (imageReframeProcess env).2.any effectIsPublish = false) := by
  unfold imageReframeProcess
  rcases hi : imageReframeInner env with ⟨r, fx⟩
  cases r with
  | ok a =>
    refine ⟨fun _ => rfl, ?_⟩
    intro e h
    exact Except.noConfusion h
  | error e0 =>
    have hfx : fx.any effectIsPublish = false := by
      have hh := imageReframeInner_error_noPub env e0 (by rw [hi])
      rw [hi] at hh
      exact hh
    constructor
    · intro hp
      simp [List.any_append, hfx, effectIsPublish] at hp
    · intro e h
      have he : e0 = e := by
        injection h
      subst he
      refine ⟨by simp, ?_⟩
      simp [List.any_append, hfx, effectIsPublish]

theorem videoModifyInner_error_noPub (env : VideoModifyEnv) (e : Err)
    (h : (videoModifyInner env).1 = Except.error e) :
    ((videoModifyInner env).2).any effectIsPublish = false := by
  unfold videoModifyInner at h ⊢
  by_cases hk : env.apiKey = ("")
  · simp only [if_pos hk] at h ⊢
    rfl
  · simp only [if_neg hk] at h ⊢
    rcases hiu : env.inputVideoPublicUrl with _ | videoUrl
    · simp only [hiu] at h ⊢
      rfl
    · simp only [hiu] at h ⊢
      by_cases hpr : env.prompt = ("")
      · simp only [if_pos hpr] at h ⊢
        rfl
      · simp only [if_neg hpr] at h ⊢
        rcases hff : videoModifyFirstFrame env with _ | u <;>
          simp only [hff] at h ⊢
        all_goals
          rcases hcr : env.createResult with msg | genId
        case _ =>
          simp only [hcr] at h ⊢
          simp [List.any_append, effectIsPublish]
        case _ =>
          simp only [hcr] at h ⊢
          rcases hp : (pollRun env.pollStates videoModifyPoll.maxAttempts).1 with g | reason | n
          · simp only [hp] at h ⊢
            by_cases hs : 400 ≤ env.http.fetchStatus g.assetVideo
            · simp only [if_pos hs] at h ⊢
              simp [List.any_append, effectIsPublish, any_publish_pollLogs]
            · simp only [if_neg hs] at h ⊢
              exact Except.noConfusion h
          · simp only [hp] at h ⊢
            simp [List.any_append, effectIsPublish, any_publish_pollLogs]
          · simp only [hp] at h ⊢
            simp [List.any_append, effectIsPublish, any_publish_pollLogs]
        case _ =>
          simp only [hcr] at h ⊢
          simp [List.any_append, effectIsPublish]
        case _ =>
          simp only [hcr] at h ⊢
          rcases hp : (pollRun env.pollStates videoModifyPoll.maxAttempts).1 with g | reason | n
          · simp only [hp] at h ⊢
            by_cases hs : 400 ≤ env.http.fetchStatus g.assetVideo
            · simp only [if_pos hs] at h ⊢
              simp [List.any_append, effectIsPublish, any_publish_pollLogs]
            · simp only [if_neg hs] at h ⊢
              exact Except.noConfusion h
          · simp only [hp] at h ⊢
            simp [List.any_append, effectIsPublish, any_publish_pollLogs]
          · simp only [hp] at h ⊢
            simp [List.any_append, effectIsPublish, any_publish_pollLogs]

theorem videoModifyProcess_error_and_publish (env : VideoModifyEnv) :
    ((videoModifyProcess env).2.any effectIsPublish = true →
      (videoModifyProcess env).1 = Except.ok ()) ∧
    (∀ e, (videoModifyProcess env).1 = Except.error e →
      Effect.log (videoModifyFailLine e) ∈ (videoModifyProcess env).2 ∧
      (videoModifyProcess env).2.any effectIsPublish = false) := by
  unfold videoModifyProcess
  rcases hi : videoModifyInner env with ⟨r, fx⟩
  cases r with
  | ok a =>
    refine ⟨fun _ => rfl, ?_⟩
    intro e h
    exact Except.noConfusion h
  | error e0 =>
    have hfx : fx.any effectIsPublish = false := by
      have hh := videoModifyInner_error_noPub env e0 (by rw [hi])
      rw [hi] at hh
      exact hh
    constructor
    · intro hp
      simp [List.any_append, hfx, effectIsPublish] at hp
    · intro e h
      have he : e0 = e := by
        injection h
      subst he
      refine ⟨by simp, ?_⟩
      simp [List.any_append, hfx, effectIsPublish]

theorem videoReframeInner_error_noPub (env : VideoReframeEnv) (e : Err)
    (h : (videoReframeInner env).1 = Except.error e) :
    ((videoReframeInner env).2).any effectIsPublish = false := by
  unfold videoReframeInner at h ⊢
  by_cases hk : env.apiKey = ("")
  · simp only [if_pos hk] at h ⊢
    rfl
  · simp only [if_neg hk] at h ⊢
    rcases hiu : env.inputVideoPublicUrl with _ | videoUrl
    · simp only [hiu] at h ⊢
      rfl
    · simp only [hiu] at h ⊢
      rcases hcr : env.createResult with msg | genId
      · simp only [hcr] at h ⊢
        simp [List.any_append, effectIsPublish, any_publish_ite_log,
          any_publish_ite_log_inv]
      · simp only [hcr] at h ⊢
        rcases hp : (pollRun env.pollStates videoReframePoll.maxAttempts).1 with g | reason | n
        · simp only [hp] at h ⊢
          by_cases hs : 400 ≤ env.http.fetchStatus g.assetVideo
          · simp only [if_pos hs] at h ⊢
            simp [List.any_append, effectIsPublish, any_publish_ite_log,
              any_publish_ite_log_inv, any_publish_pollLogs]
          · simp only [if_neg hs] at h ⊢
            exact Except.noConfusion h
        · simp only [hp] at h ⊢
          simp [List.any_append, effectIsPublish, any_publish_ite_log,
            any_publish_ite_log_inv, any_publish_pollLogs]
        · simp only [hp] at h ⊢
          simp [List.any_append, effectIsPublish, any_publish_ite_log,
            any_publish_ite_log_inv, any_publish_pollLogs]

theorem videoReframeProcess_error_and_publish (env : VideoReframeEnv) :
    ((videoReframeProcess env).2.any effectIsPublish = true →
      (videoReframeProcess env).1 = Except.ok ()) ∧
    (∀ e, (videoReframeProcess env).1 = Except.error e →
      Effect.log (videoReframeFailLine e) ∈ (videoReframeProcess env).2 ∧
      (videoReframeProcess env).2.any effectIsPublish = false) := by
  unfold videoReframeProcess
  rcases hi : videoReframeInner env with ⟨r, fx⟩
  cases r with
  | ok a =>
    refine ⟨fun _ => rfl, ?_⟩
    intro e h
    exact Except.noConfusion h
  | error e0 =>
    have hfx : fx.any effectIsPublish = false := by
      have hh := videoReframeInner_error_noPub env e0 (by rw [hi])
      rw [hi] at hh
      exact hh
    constructor
    · intro hp
      simp [List.any_append, hfx, effectIsPublish] at hp
    · intro e h
      have he : e0 = e := by
        injection h
      subst he
      refine ⟨by simp, ?_⟩
      simp [List.any_append, hfx, effectIsPublish]

/-- C9: in every embedded node flow (image generation, video generation,
image reframe, video modify and video reframe), an output artifact is
published only when the whole invocation succeeds (so only after completion,
download and persistence), and every error raised during the async flow is
appended to the status log with the failure marker line and re-raised, with
no output published. -/
theorem async_error_logged_and_no_partial_output :
    (∀ env : ImgGenEnv,
      ((imgGenProcess env).2.any effectIsPublish = true →
        (imgGenProcess env).1 = Except.ok ()) ∧
      (∀ e, (imgGenProcess env).1 = Except.error e →
        Effect.log (imageGenFailLine e) ∈ (imgGenProcess env).2 ∧
        (imgGenProcess env).2.any effectIsPublish = false)) ∧
    (∀ env : VideoGenEnv,
      ((videoGenProcess env).2.any effectIsPublish = true →
        (videoGenProcess env).1 = Except.ok ()) ∧
      (∀ e, (videoGenProcess env).1 = Except.error e →
        Effect.log (videoGenFailLine e) ∈ (videoGenProcess env).2 ∧
        (videoGenProcess env).2.any effectIsPublish = false)) ∧
    (∀ env : ImageReframeEnv,
      ((imageReframeProcess env).2.any effectIsPublish = true →
        (imageReframeProcess env).1 = Except.ok ()) ∧
      (∀ e, (imageReframeProcess env).1 = Except.error e →
        Effect.log (imageReframeFailLine e) ∈ (imageReframeProcess env).2 ∧
        (imageReframeProcess env).2.any effectIsPublish = false)) ∧
    (∀ env : VideoModifyEnv,
      ((videoModifyProcess env).2.any effectIsPublish = true →
        (videoModifyProcess env).1 = Except.ok ()) ∧
      (∀ e, (videoModifyProcess env).1 = Except.error e →
        Effect.log (videoModifyFailLine e) ∈ (videoModifyProcess env).2 ∧
        (videoModifyProcess env).2.any effectIsPublish = false)) ∧
    (∀ env : VideoReframeEnv,
      ((videoReframeProcess env).2.any effectIsPublish = true →
        (videoReframeProcess env).1 = Except.ok ()) ∧
      (∀ e, (videoReframeProcess env).1 = Except.error e →
        Effect.log (videoReframeFailLine e) ∈ (videoReframeProcess env).2 ∧
        (videoReframeProcess env).2.any effectIsPublish = false)) :=
  ⟨imgGenProcess_error_and_publish, videoGenProcess_error_and_publish,
   imageReframeProcess_error_and_publish, videoModifyProcess_error_and_publish,
   videoReframeProcess_error_and_publish⟩

/-- Witness for C9: the invocation with no API key configured fails and its
status log contains the failure marker line for that error. -/
theorem async_error_logged_and_no_partial_output_w :
    Effect.log (imageGenFailLine (Err.valueError apiKeyRaiseMsg)) ∈
      (imgGenProcess imgGenEnvNoKey).2 :=
  ((async_error_logged_and_no_partial_output.1 imgGenEnvNoKey).2
    (Err.valueError apiKeyRaiseMsg) rfl).1

end Luma
